import Mathlib

/-!
# BrowserPluginCompositingHelper: the cross-process compositor frame relay

A shallow embedding of
`content/renderer/browser_plugin/browser_plugin_compositing_helper.cc`.

* The helper object is a record of its data members; every member function
  is a function on that record.
* The objects the helper talks to (the cc layers, the plugin container and
  the browser plugin manager) are external.  What the helper does to them is
  recorded twice: as the ordered list of calls a member function makes
  (`Call`), and as the values the helper has set on each layer.
* A member function that can dereference a null pointer or take the last
  element of an empty vector returns `Except Fault _`.
* `DCHECK` is compiled out of release builds; the embedding follows the
  release build (a `DCHECK` does nothing) and states the asserted condition
  separately where a theorem needs it.
* `float` is IEEE-754 binary32 with round-to-nearest-even, modelled exactly
  with integers (`Float32`).

The file also embeds `ProfileAuthDataTransferer` of
`chrome/browser/chromeos/login/profile_auth_data.cc` (namespace `chromeos`):
the object is a record of its data members, a member function returns the
object, the calls it made and the callbacks it has bound, and a transfer is a
sequence of steps in which one bound callback runs.
-/

/-! ## binary32 arithmetic -/

/-- The C++ `float`: a finite value is `(-1)^sign * m * 2^e`. -/
inductive Float32 where
  | finite (sign : Bool) (m : Nat) (e : Int)
  | infinity (sign : Bool)
  | nan
deriving DecidableEq

namespace Float32

/-- Number of binary digits of `n`, by halving at most `fuel` times. -/
def bitLengthAux : Nat → Nat → Nat
  | 0, _ => 0
  | fuel + 1, n => if n = 0 then 0 else bitLengthAux fuel (n / 2) + 1

/-- Number of binary digits of `n` (0 for 0). -/
def bitLength (n : Nat) : Nat := bitLengthAux n n

/-- The integer `floor (log2 (n / d))` for positive `n` and `d`. -/
def ilog2 (n d : Nat) : Int :=
  let k : Int := (bitLength n : Int) - (bitLength d : Int)
  if 0 ≤ k then (if d * 2 ^ k.toNat ≤ n then k else k - 1)
  else (if d ≤ n * 2 ^ (-k).toNat then k else k - 1)

/-- Round the non-negative rational `n / d` (`d > 0`) to the nearest binary32
value, ties to even: 24 significant bits, least exponent `-149` (subnormals),
overflow to infinity at `2^128`. -/
def round (sign : Bool) (n d : Nat) : Float32 :=
  if n = 0 then finite sign 0 0 else
  let e : Int := max (ilog2 n d - 23) (-149)
  let num := if 0 ≤ e then n else n * 2 ^ (-e).toNat
  let den := if 0 ≤ e then d * 2 ^ e.toNat else d
  let q := num / den
  let r := num % den
  let m := if den < 2 * r ∨ (2 * r = den ∧ q % 2 = 1) then q + 1 else q
  if 104 ≤ e ∧ 2 ^ 24 ≤ m * 2 ^ (e - 104).toNat then infinity sign else finite sign m e

/-- Conversion of a non-negative `int` to `float`. -/
def ofNat (w : Nat) : Float32 := round false w 1

/-- The literal `1.0f`. -/
def one : Float32 := finite false 1 0

/-- Binary32 division `a / b`. -/
def div : Float32 → Float32 → Float32
  | nan, _ => nan
  | _, nan => nan
  | infinity _, infinity _ => nan
  | infinity s, finite t _ _ => infinity (xor s t)
  | finite s _ _, infinity t => finite (xor s t) 0 0
  | finite s m e, finite t m2 e2 =>
    if m2 = 0 then (if m = 0 then nan else infinity (xor s t))
    else
      let k := e - e2
      round (xor s t) (if 0 ≤ k then m * 2 ^ k.toNat else m)
        (if 0 ≤ k then m2 else m2 * 2 ^ (-k).toNat)

/-- Binary32 multiplication `a * b`. -/
def mul : Float32 → Float32 → Float32
  | nan, _ => nan
  | _, nan => nan
  | infinity s, infinity t => infinity (xor s t)
  | infinity s, finite t m _ => if m = 0 then nan else infinity (xor s t)
  | finite s m _, infinity t => if m = 0 then nan else infinity (xor s t)
  | finite s m e, finite t m2 e2 =>
    let k := e + e2
    round (xor s t) (if 0 ≤ k then m * m2 * 2 ^ k.toNat else m * m2)
      (if 0 ≤ k then 1 else 2 ^ (-k).toNat)

end Float32

/-! ## ui/gfx -/

namespace gfx

/-- Modelled from the spec: `gfx::Size` is declared outside src/ (ui/gfx); a
pixel size `(width, height)` of two non-negative integers. -/
structure Size where
  width : Nat
  height : Nat
deriving DecidableEq

/-- Modelled from the spec: `gfx::ToFlooredInt` is declared outside src/; the
floor of a `float` as an `int`, clamped to the range of `int`.  The conversion
of a NaN is the value x86 produces (`INT_MIN`). -/
def ToFlooredInt : Float32 → Int
  | Float32.nan => -(2 ^ 31)
  | Float32.infinity s => if s then -(2 ^ 31) else 2 ^ 31 - 1
  | Float32.finite s m e =>
    let v : Int := if s then -(m : Int) else (m : Int)
    let f : Int := if 0 ≤ e then v * 2 ^ e.toNat else v / 2 ^ (-e).toNat
    if 2 ^ 31 ≤ f then 2 ^ 31 - 1 else if f ≤ -(2 ^ 31) then -(2 ^ 31) else f

/-- Modelled from the spec: `gfx::ToFlooredSize (gfx::ScaleSize (size, scale))`,
both declared outside src/: each dimension is converted to `float`, multiplied
by `scale` in `float`, floored, and a negative result becomes 0. -/
def ToFlooredScaledSize (size : Size) (scale : Float32) : Size :=
  { width := (ToFlooredInt (Float32.mul (Float32.ofNat size.width) scale)).toNat
    height := (ToFlooredInt (Float32.mul (Float32.ofNat size.height) scale)).toNat }

/-- Modelled from the spec: `gfx::Rect`, declared outside src/. -/
structure Rect where
  x : Int
  y : Int
  width : Nat
  height : Nat
deriving DecidableEq

/-- Modelled from the spec: `gfx::Rect::size()`, declared outside src/. -/
def Rect.size (r : Rect) : Size := { width := r.width, height := r.height }

end gfx

/-! ## gpu and cc data -/

namespace gpu

/-- Modelled from the spec: `gpu::Mailbox` is declared outside src/; the
resource token, `name` being the bytes of its `int8 name[64]` array. -/
structure Mailbox where
  name : List Nat
deriving DecidableEq

/-- Modelled from the spec: `Mailbox()`, declared outside src/, sets all 64
bytes to zero; this is the empty token. -/
def Mailbox.zero : Mailbox := { name := List.replicate 64 0 }

/-- Modelled from the spec: `Mailbox::IsZero()`, declared outside src/; every
byte is zero. -/
def Mailbox.IsZero (m : Mailbox) : Bool := m.name.all (fun b => b == 0)

/-- Modelled from the spec: `Mailbox::SetName(p)`, declared outside src/; copies
`sizeof(name)` = 64 bytes from `p`, so the name always has 64 bytes.  `data`
is the string whose `data()` is passed as `p` (line 232).  The sender builds
the string from a mailbox name, so it holds 64 bytes; of a longer string the
first 64 bytes are copied, and past the end of a shorter one the copy reads
bytes that the source does not determine, which are taken as zero here. -/
def Mailbox.SetName (data : List Nat) : Mailbox :=
  { name := (data ++ List.replicate 64 0).take 64 }

end gpu

namespace cc

/-- A `cc::TransferableResource`, identified by its id. -/
abbrev TransferableResource := Nat

/-- The `cc::GLFrameData` payload: one GPU-backed plane. -/
structure GLFrameData where
  mailbox : gpu.Mailbox
  sync_point : Nat
  size : gfx.Size
deriving DecidableEq

/-- A `cc::RenderPass`, of which the helper reads only `output_rect`. -/
structure RenderPass where
  output_rect : gfx.Rect
deriving DecidableEq

/-- The `cc::DelegatedFrameData` payload. -/
structure DelegatedFrameData where
  resource_list : List TransferableResource
  render_pass_list : List RenderPass
deriving DecidableEq

/-- The part of `cc::CompositorFrameMetadata` the helper reads. -/
structure CompositorFrameMetadata where
  device_scale_factor : Float32
deriving DecidableEq

/-- A `cc::CompositorFrame`; each payload pointer may be null. -/
structure CompositorFrame where
  metadata : CompositorFrameMetadata
  delegated_frame_data : Option DelegatedFrameData
  gl_frame_data : Option GLFrameData
deriving DecidableEq

/-- A `cc::CompositorFrameAck`. -/
structure CompositorFrameAck where
  resources : List TransferableResource
  gl_frame_data : Option GLFrameData
deriving DecidableEq

end cc

namespace content

/-- The transport kind of a swap (`SwapBuffersInfoType` of the header). -/
inductive SwapBuffersInfoType where
  | TEXTURE_IMAGE_TRANSPORT
  | COMPOSITOR_FRAME
deriving DecidableEq

/-- Modelled from the spec: `MailboxSwapInfo` is declared in the header, which
is outside src/; the buffer descriptor of one swap. -/
structure MailboxSwapInfo where
  name : gpu.Mailbox
  type : SwapBuffersInfoType
  size : gfx.Size
  route_id : Int
  host_id : Int
deriving DecidableEq

/-- Modelled from the spec: the constructor `MailboxSwapInfo()` of the header,
outside src/; a zero mailbox, size 0x0, ids 0. -/
def MailboxSwapInfo.default : MailboxSwapInfo :=
  { name := gpu.Mailbox.zero, type := SwapBuffersInfoType.TEXTURE_IMAGE_TRANSPORT,
    size := { width := 0, height := 0 }, route_id := 0, host_id := 0 }

/-- The messages the helper sends to the browser process; each starts with
`(host_routing_id_, instance_id_, route_id, host_id)`. -/
inductive Message where
  | BuffersSwappedACK (routing_id instance_id route_id host_id : Int)
      (mailbox_name : List Nat) (sync_point : Nat)
  | CompositorFrameACK (routing_id instance_id route_id host_id : Int)
      (ack : cc.CompositorFrameAck)
deriving DecidableEq

/-- A `cc::TextureMailbox (name, callback, sync_point)`; the release callback
is `MailboxReleased` bound to a descriptor, or null. -/
structure TextureMailbox where
  name : gpu.Mailbox
  callback : Option MailboxSwapInfo
  sync_point : Nat
deriving DecidableEq

/-- Which of the helper's two content layers a `cc::Layer*` points to. -/
inductive LayerKind where
  | texture
  | delegated
deriving DecidableEq

/-- What the helper has set on its `cc::TextureLayer`. -/
structure TextureLayer where
  bounds : gfx.Size
  is_drawable_ : Bool
  contents_opaque_ : Bool
  texture_mailbox : Option TextureMailbox
  needs_display_ : Bool
deriving DecidableEq

/-- Modelled from the spec: `cc::TextureLayer::CreateForMailbox(NULL)`, declared
outside src/; a layer with nothing set. -/
def TextureLayer.CreateForMailbox : TextureLayer :=
  { bounds := { width := 0, height := 0 }, is_drawable_ := false, contents_opaque_ := false,
    texture_mailbox := none, needs_display_ := false }

/-- What the helper has set on its `cc::DelegatedRendererLayer`, and the
resources the layer currently reports as unused. -/
structure DelegatedRendererLayer where
  bounds : gfx.Size
  is_drawable_ : Bool
  contents_opaque_ : Bool
  frame_data : Option cc.DelegatedFrameData
  unused_resources : List cc.TransferableResource
deriving DecidableEq

/-- Modelled from the spec: `cc::DelegatedRendererLayer::Create(NULL)`, declared
outside src/; a layer with nothing set. -/
def DelegatedRendererLayer.Create : DelegatedRendererLayer :=
  { bounds := { width := 0, height := 0 }, is_drawable_ := false, contents_opaque_ := false,
    frame_data := none, unused_resources := [] }

/-- What the helper has set on the root holder, a `cc::SolidColorLayer`. -/
structure SolidColorLayer where
  masks_to_bounds_ : Bool
  background_color_ : Option (Nat × Nat × Nat × Nat)
  children : List LayerKind
deriving DecidableEq

/-- Modelled from the spec: `cc::SolidColorLayer::Create()`, declared outside
src/; a layer with nothing set and no children. -/
def SolidColorLayer.Create : SolidColorLayer :=
  { masks_to_bounds_ := false, background_color_ := none, children := [] }

/-- The `WebKit::WebPluginContainer`: whether a web layer is bound to it. -/
structure WebPluginContainer where
  web_layer : Bool
deriving DecidableEq

/-- One call the helper makes on an external object, in program order. -/
inductive Call where
  | Send (msg : Message)
  | SolidColorLayer_Create
  | SetMasksToBounds (b : Bool)
  | SetBackgroundColor (argb : Nat × Nat × Nat × Nat)
  | WebLayerImpl_new
  | setWebLayer (layer : Bool)
  | TextureLayer_CreateForMailbox
  | DelegatedRendererLayer_Create
  | SetIsDrawable (layer : LayerKind) (b : Bool)
  | SetContentsOpaque (layer : LayerKind) (b : Bool)
  | AddChild (layer : LayerKind)
  | SetBounds (layer : LayerKind) (size : gfx.Size)
  | SetTextureMailbox (mailbox : TextureMailbox)
  | SetNeedsDisplay
  | SetFrameData (data : cc.DelegatedFrameData)
  | TakeUnusedResourcesForChildCompositor
deriving DecidableEq

/-- How a member function can go wrong. -/
inductive Fault where
  | nullDereference
  | backOfEmptyVector
deriving DecidableEq

/-- The data members of `BrowserPluginCompositingHelper`.  A null pointer is
`none`; `web_layer_` says whether the `scoped_ptr` holds a layer. -/
structure BrowserPluginCompositingHelper where
  instance_id_ : Int
  host_routing_id_ : Int
  last_route_id_ : Int
  last_host_id_ : Int
  last_mailbox_valid_ : Bool
  ack_pending_ : Bool
  buffer_size_ : gfx.Size
  container_ : Option WebPluginContainer
  background_layer_ : Option SolidColorLayer
  texture_layer_ : Option TextureLayer
  delegated_layer_ : Option DelegatedRendererLayer
  web_layer_ : Bool
deriving DecidableEq

/-- What a member function returns: the helper afterwards and the calls made. -/
abbrev Outcome := BrowserPluginCompositingHelper × List Call

namespace BrowserPluginCompositingHelper

/-- The constructor (lines 23-36). -/
def new (container : Option WebPluginContainer) (instance_id host_routing_id : Int) :
    BrowserPluginCompositingHelper :=
  { instance_id_ := instance_id
    host_routing_id_ := host_routing_id
    last_route_id_ := 0
    last_host_id_ := 0
    last_mailbox_valid_ := false
    ack_pending_ := true
    buffer_size_ := { width := 0, height := 0 }
    container_ := container
    background_layer_ := none
    texture_layer_ := none
    delegated_layer_ := none
    web_layer_ := false }

/-- The descriptor `empty_info` built at lines 92-95 and 203-206: a default
descriptor that takes over type, route id and host id. -/
def empty_info (mailbox : MailboxSwapInfo) : MailboxSwapInfo :=
  { MailboxSwapInfo.default with
    type := mailbox.type, route_id := mailbox.route_id, host_id := mailbox.host_id }

/-- The `switch` of lines 113-143: the acknowledgment built for a descriptor,
a `BuffersSwappedACK` or a `CompositorFrameACK` with `gl_frame_data`. -/
def ackFor (st : BrowserPluginCompositingHelper) (mailbox : MailboxSwapInfo)
    (sync_point : Nat) : Message :=
  match mailbox.type with
  | SwapBuffersInfoType.TEXTURE_IMAGE_TRANSPORT =>
    Message.BuffersSwappedACK st.host_routing_id_ st.instance_id_ mailbox.route_id
      mailbox.host_id mailbox.name.name sync_point
  | SwapBuffersInfoType.COMPOSITOR_FRAME =>
    Message.CompositorFrameACK st.host_routing_id_ st.instance_id_ mailbox.route_id
      mailbox.host_id
      { resources := []
        gl_frame_data := some
          { mailbox := mailbox.name, size := mailbox.size, sync_point := sync_point } }

/-- Member function `MailboxReleased` for `lost_resource = false` (lines 100-143). -/
def MailboxReleasedNotLost (st : BrowserPluginCompositingHelper) (mailbox : MailboxSwapInfo)
    (sync_point : Nat) : Outcome :=
  if st.last_host_id_ ≠ mailbox.host_id ∨ st.last_route_id_ ≠ mailbox.route_id then
    (st, [])
  else if !st.ack_pending_ then
    ({ st with last_mailbox_valid_ := false }, [])
  else
    ({ st with ack_pending_ := false }, [Call.Send (ackFor st mailbox sync_point)])

/-- Member function `MailboxReleased` (lines 86-144).  The recursive call of line 96 has
`lost_resource = false`, so it runs the rest of the body once. -/
def MailboxReleased (st : BrowserPluginCompositingHelper) (mailbox : MailboxSwapInfo)
    (sync_point : Nat) (lost_resource : Bool) : Outcome :=
  if lost_resource then
    MailboxReleasedNotLost st (empty_info mailbox) 0
  else
    MailboxReleasedNotLost st mailbox sync_point

/-- Member function `DidCommitCompositorFrame` (lines 41-57). -/
def DidCommitCompositorFrame (st : BrowserPluginCompositingHelper) : Outcome :=
  match st.delegated_layer_ with
  | none => (st, [])
  | some layer =>
    if !st.ack_pending_ then (st, [])
    else
      ({ st with
          delegated_layer_ := some { layer with unused_resources := [] }
          ack_pending_ := false },
        [Call.TakeUnusedResourcesForChildCompositor,
         Call.Send (Message.CompositorFrameACK st.host_routing_id_ st.instance_id_
           st.last_route_id_ st.last_host_id_
           { resources := layer.unused_resources, gl_frame_data := none })])

/-- Member function `EnableCompositing` (lines 59-69). -/
def EnableCompositing (st : BrowserPluginCompositingHelper) (enable : Bool) :
    Except Fault Outcome :=
  let created : Outcome :=
    if enable && st.background_layer_.isNone then
      ({ st with
          background_layer_ := some
            { SolidColorLayer.Create with
              masks_to_bounds_ := true, background_color_ := some (255, 255, 255, 255) }
          web_layer_ := true },
        [Call.SolidColorLayer_Create, Call.SetMasksToBounds true,
         Call.SetBackgroundColor (255, 255, 255, 255), Call.WebLayerImpl_new])
    else (st, [])
  match created.1.container_ with
  | none => Except.error Fault.nullDereference
  | some _ =>
    Except.ok
      ({ created.1 with container_ := some { web_layer := enable && created.1.web_layer_ } },
        created.2 ++ [Call.setWebLayer (enable && created.1.web_layer_)])

/-- Member function `CheckSizeAndAdjustLayerBounds` (lines 71-84); `layer` says which of the
helper's layers the `cc::Layer*` argument points to. -/
def CheckSizeAndAdjustLayerBounds (st : BrowserPluginCompositingHelper) (new_size : gfx.Size)
    (device_scale_factor : Float32) (layer : LayerKind) : Except Fault Outcome :=
  if st.buffer_size_ ≠ new_size then
    let device_scale_adjusted_size :=
      gfx.ToFlooredScaledSize new_size (Float32.div Float32.one device_scale_factor)
    match layer with
    | LayerKind.texture =>
      match st.texture_layer_ with
      | none => Except.error Fault.nullDereference
      | some l =>
        Except.ok
          ({ st with
              buffer_size_ := new_size
              texture_layer_ := some { l with bounds := device_scale_adjusted_size } },
            [Call.SetBounds LayerKind.texture device_scale_adjusted_size])
    | LayerKind.delegated =>
      match st.delegated_layer_ with
      | none => Except.error Fault.nullDereference
      | some l =>
        Except.ok
          ({ st with
              buffer_size_ := new_size
              delegated_layer_ := some { l with bounds := device_scale_adjusted_size } },
            [Call.SetBounds LayerKind.delegated device_scale_adjusted_size])
  else Except.ok (st, [])

/-- Member function `OnContainerDestroy` (lines 146-155). -/
def OnContainerDestroy (st : BrowserPluginCompositingHelper) : Outcome :=
  ({ st with
      container_ := none
      texture_layer_ := none
      delegated_layer_ := none
      background_layer_ := none
      web_layer_ := false },
    match st.container_ with
    | some _ => [Call.setWebLayer false]
    | none => [])

/-- The condition of the `DCHECK` at line 161. -/
def OnBuffersSwappedPrivate_DCHECK (st : BrowserPluginCompositingHelper) : Bool :=
  st.delegated_layer_.isNone

/-- Lines 166-172 of `OnBuffersSwappedPrivate`: the generation check, then the
new ids are adopted and `ack_pending_` is set. -/
def adoptGeneration (st : BrowserPluginCompositingHelper) (mailbox : MailboxSwapInfo) :
    BrowserPluginCompositingHelper :=
  { st with
    last_mailbox_valid_ :=
      if st.last_route_id_ ≠ mailbox.route_id ∨ st.last_host_id_ ≠ mailbox.host_id then false
      else st.last_mailbox_valid_
    last_route_id_ := mailbox.route_id
    last_host_id_ := mailbox.host_id
    ack_pending_ := true }

/-- Lines 179-185 of `OnBuffersSwappedPrivate`: create the texture layer and
attach it to the root holder when there is none. -/
def ensureTextureLayer (st : BrowserPluginCompositingHelper) (background : SolidColorLayer) :
    Outcome :=
  match st.texture_layer_ with
  | some _ => (st, [])
  | none =>
    ({ st with
        texture_layer_ := some
          { TextureLayer.CreateForMailbox with is_drawable_ := true, contents_opaque_ := true }
        background_layer_ := some
          { background with children := background.children ++ [LayerKind.texture] } },
      [Call.TextureLayer_CreateForMailbox, Call.SetIsDrawable LayerKind.texture true,
       Call.SetContentsOpaque LayerKind.texture true, Call.AddChild LayerKind.texture])

/-- Member function `OnBuffersSwappedPrivate` (lines 157-223). -/
def OnBuffersSwappedPrivate (st : BrowserPluginCompositingHelper) (mailbox : MailboxSwapInfo)
    (sync_point : Nat) (device_scale_factor : Float32) : Except Fault Outcome :=
  let st1 := adoptGeneration st mailbox
  match st1.background_layer_ with
  | none => Except.ok (MailboxReleased st1 mailbox sync_point false)
  | some background =>
    let r2 := ensureTextureLayer st1 background
    match CheckSizeAndAdjustLayerBounds r2.1 mailbox.size device_scale_factor
        LayerKind.texture with
    | Except.error f => Except.error f
    | Except.ok r3 =>
      let current_mailbox_valid := !mailbox.name.IsZero
      let r4 : Outcome :=
        if !r3.1.last_mailbox_valid_ then MailboxReleased r3.1 (empty_info mailbox) 0 false
        else (r3.1, [])
      if !r3.1.last_mailbox_valid_ && !current_mailbox_valid then
        Except.ok (r4.1, r2.2 ++ r3.2 ++ r4.2)
      else
        let texture_mailbox : TextureMailbox :=
          { name := mailbox.name
            callback := if current_mailbox_valid then some mailbox else none
            sync_point := sync_point }
        match r4.1.texture_layer_ with
        | none => Except.error Fault.nullDereference
        | some l =>
          Except.ok
            ({ r4.1 with
                texture_layer_ := some
                  { l with texture_mailbox := some texture_mailbox, needs_display_ := true }
                last_mailbox_valid_ := current_mailbox_valid },
              r2.2 ++ r3.2 ++ r4.2 ++
                [Call.SetTextureMailbox texture_mailbox, Call.SetNeedsDisplay])

/-- The descriptor `swap_info` that `OnBuffersSwapped` builds (lines 231-236). -/
def textureSwapInfo (size : gfx.Size) (mailbox_name : List Nat)
    (gpu_route_id gpu_host_id : Int) : MailboxSwapInfo :=
  { MailboxSwapInfo.default with
    name := gpu.Mailbox.SetName mailbox_name
    type := SwapBuffersInfoType.TEXTURE_IMAGE_TRANSPORT
    size := size
    route_id := gpu_route_id
    host_id := gpu_host_id }

/-- Member function `OnBuffersSwapped` (lines 225-238). -/
def OnBuffersSwapped (st : BrowserPluginCompositingHelper) (size : gfx.Size)
    (mailbox_name : List Nat) (gpu_route_id gpu_host_id : Int)
    (device_scale_factor : Float32) : Except Fault Outcome :=
  OnBuffersSwappedPrivate st (textureSwapInfo size mailbox_name gpu_route_id gpu_host_id)
    0 device_scale_factor

/-- The condition of the `DCHECK` at line 257. -/
def OnCompositorFrameSwapped_DCHECK (st : BrowserPluginCompositingHelper) : Bool :=
  st.texture_layer_.isNone

/-- Lines 258-264 of `OnCompositorFrameSwapped`: create the delegated layer and
attach it to the root holder when there is none. -/
def ensureDelegatedLayer (st : BrowserPluginCompositingHelper) : Except Fault Outcome :=
  match st.delegated_layer_ with
  | some _ => Except.ok (st, [])
  | none =>
    match st.background_layer_ with
    | none => Except.error Fault.nullDereference
    | some background =>
      Except.ok
        ({ st with
            delegated_layer_ := some
              { DelegatedRendererLayer.Create with
                is_drawable_ := true, contents_opaque_ := true }
            background_layer_ := some
              { background with children := background.children ++ [LayerKind.delegated] } },
          [Call.DelegatedRendererLayer_Create, Call.SetIsDrawable LayerKind.delegated true,
           Call.SetContentsOpaque LayerKind.delegated true, Call.AddChild LayerKind.delegated])

/-- The descriptor `swap_info` that `OnCompositorFrameSwapped` builds for a
frame with `gl_frame_data` (lines 245-250). -/
def frameSwapInfo (gl : cc.GLFrameData) (route_id host_id : Int) : MailboxSwapInfo :=
  { MailboxSwapInfo.default with
    name := gl.mailbox
    type := SwapBuffersInfoType.COMPOSITOR_FRAME
    size := gl.size
    route_id := route_id
    host_id := host_id }

/-- Member function `OnCompositorFrameSwapped` (lines 240-279). -/
def OnCompositorFrameSwapped (st : BrowserPluginCompositingHelper) (frame : cc.CompositorFrame)
    (route_id host_id : Int) : Except Fault Outcome :=
  match frame.gl_frame_data with
  | some gl =>
    OnBuffersSwappedPrivate st (frameSwapInfo gl route_id host_id)
      gl.sync_point frame.metadata.device_scale_factor
  | none =>
    match ensureDelegatedLayer st with
    | Except.error f => Except.error f
    | Except.ok r1 =>
      match frame.delegated_frame_data with
      | none => Except.ok r1
      | some frame_data =>
        match frame_data.render_pass_list.getLast? with
        | none => Except.error Fault.backOfEmptyVector
        | some pass =>
          match CheckSizeAndAdjustLayerBounds r1.1 pass.output_rect.size
              frame.metadata.device_scale_factor LayerKind.delegated with
          | Except.error f => Except.error f
          | Except.ok r2 =>
            match r2.1.delegated_layer_ with
            | none => Except.error Fault.nullDereference
            | some l =>
              Except.ok
                ({ r2.1 with
                    delegated_layer_ := some { l with frame_data := some frame_data }
                    last_route_id_ := route_id
                    last_host_id_ := host_id
                    ack_pending_ := true },
                  r1.2 ++ r2.2 ++ [Call.SetFrameData frame_data])

/-- Member function `UpdateVisibility` (lines 281-286). -/
def UpdateVisibility (st : BrowserPluginCompositingHelper) (visible : Bool) : Outcome :=
  ({ st with
      texture_layer_ := st.texture_layer_.map (fun l => { l with is_drawable_ := visible })
      delegated_layer_ := st.delegated_layer_.map (fun l => { l with is_drawable_ := visible }) },
    (match st.texture_layer_ with
      | some _ => [Call.SetIsDrawable LayerKind.texture visible]
      | none => []) ++
    (match st.delegated_layer_ with
      | some _ => [Call.SetIsDrawable LayerKind.delegated visible]
      | none => []))

end BrowserPluginCompositingHelper

/-- The acknowledgment messages among the calls, in order. -/
def sentMessages : List Call → List Message
  | [] => []
  | Call.Send msg :: rest => msg :: sentMessages rest
  | _ :: rest => sentMessages rest

end content

namespace content

/-- The resource token an acknowledgment carries, if it carries one. -/
def Message.mailbox_name : Message → Option (List Nat)
  | Message.BuffersSwappedACK _ _ _ _ name _ => some name
  | Message.CompositorFrameACK _ _ _ _ ack => ack.gl_frame_data.map (fun gl => gl.mailbox.name)

/-- The sync point an acknowledgment carries, if it carries one. -/
def Message.sync_point : Message → Option Nat
  | Message.BuffersSwappedACK _ _ _ _ _ sync_point => some sync_point
  | Message.CompositorFrameACK _ _ _ _ ack => ack.gl_frame_data.map (fun gl => gl.sync_point)

/-- The route id an acknowledgment is addressed to. -/
def Message.route_id : Message → Int
  | Message.BuffersSwappedACK _ _ route_id _ _ _ => route_id
  | Message.CompositorFrameACK _ _ route_id _ _ => route_id

/-- The host id an acknowledgment is addressed to. -/
def Message.host_id : Message → Int
  | Message.BuffersSwappedACK _ _ _ host_id _ _ => host_id
  | Message.CompositorFrameACK _ _ _ host_id _ => host_id

/-- A relay with compositing enabled, generation (1, 1), an acknowledgment
pending and a valid mailbox on a 100x100 texture layer. -/
def sampleHelper : BrowserPluginCompositingHelper :=
  { instance_id_ := 7
    host_routing_id_ := 3
    last_route_id_ := 1
    last_host_id_ := 1
    last_mailbox_valid_ := true
    ack_pending_ := true
    buffer_size_ := { width := 100, height := 100 }
    container_ := some { web_layer := true }
    background_layer_ := some
      { masks_to_bounds_ := true, background_color_ := some (255, 255, 255, 255),
        children := [LayerKind.texture] }
    texture_layer_ := some
      { bounds := { width := 100, height := 100 }, is_drawable_ := true,
        contents_opaque_ := true, texture_mailbox := none, needs_display_ := false }
    delegated_layer_ := none
    web_layer_ := true }

/-- A non-empty resource token: 64 bytes, the first one 114. -/
def sampleName : List Nat := 114 :: List.replicate 63 0

/-- A texture descriptor of generation (1, 1) carrying `sampleName`. -/
def sampleMailbox : MailboxSwapInfo :=
  { name := { name := sampleName }, type := SwapBuffersInfoType.TEXTURE_IMAGE_TRANSPORT,
    size := { width := 100, height := 100 }, route_id := 1, host_id := 1 }

/-- Whether a call installs a mailbox on the texture layer. -/
def Call.isSetTextureMailbox : Call → Bool
  | Call.SetTextureMailbox _ => true
  | _ => false

/-- The mailbox the texture layer holds, if the layer exists and holds one. -/
def BrowserPluginCompositingHelper.installedMailbox (st : BrowserPluginCompositingHelper) :
    Option TextureMailbox :=
  match st.texture_layer_ with
  | some l => l.texture_mailbox
  | none => none

/-- The outcome of `OnBuffersSwappedPrivate` when the root holder exists, written
out field by field; `OnBuffersSwappedPrivate_root` proves that the member
function returns it. -/
def BrowserPluginCompositingHelper.swapWithRoot (st : BrowserPluginCompositingHelper)
    (background : SolidColorLayer) (m : MailboxSwapInfo) (sync_point : Nat)
    (device_scale_factor : Float32) : Outcome :=
  let valid : Bool :=
    decide (st.last_route_id_ = m.route_id ∧ st.last_host_id_ = m.host_id)
      && st.last_mailbox_valid_
  let layer0 : TextureLayer :=
    match st.texture_layer_ with
    | some l => l
    | none => { TextureLayer.CreateForMailbox with is_drawable_ := true, contents_opaque_ := true }
  let calls0 : List Call :=
    match st.texture_layer_ with
    | some _ => []
    | none =>
      [Call.TextureLayer_CreateForMailbox, Call.SetIsDrawable LayerKind.texture true,
       Call.SetContentsOpaque LayerKind.texture true, Call.AddChild LayerKind.texture]
  let background1 : SolidColorLayer :=
    match st.texture_layer_ with
    | some _ => background
    | none => { background with children := background.children ++ [LayerKind.texture] }
  let scaled := gfx.ToFlooredScaledSize m.size (Float32.div Float32.one device_scale_factor)
  let layer1 : TextureLayer :=
    if st.buffer_size_ = m.size then layer0 else { layer0 with bounds := scaled }
  let calls1 : List Call :=
    if st.buffer_size_ = m.size then [] else [Call.SetBounds LayerKind.texture scaled]
  let calls2 : List Call :=
    if valid then [] else [Call.Send (BrowserPluginCompositingHelper.ackFor st (BrowserPluginCompositingHelper.empty_info m) 0)]
  let installed : TextureMailbox :=
    { name := m.name, callback := if m.name.IsZero then none else some m,
      sync_point := sync_point }
  let installs : Bool := valid || !m.name.IsZero
  ({ st with
      last_route_id_ := m.route_id
      last_host_id_ := m.host_id
      last_mailbox_valid_ := !m.name.IsZero
      ack_pending_ := valid
      buffer_size_ := m.size
      background_layer_ := some background1
      texture_layer_ := some
        (if installs then
          { layer1 with texture_mailbox := some installed, needs_display_ := true }
        else layer1) },
    calls0 ++ calls1 ++ calls2 ++
      (if installs then [Call.SetTextureMailbox installed, Call.SetNeedsDisplay] else []))

/-- Whether a call sets the bounds of a layer. -/
def Call.isSetBounds : Call → Bool
  | Call.SetBounds _ _ => true
  | _ => false

/-- The device scale factor 5.125, that is `41 * 2^(-3)`. -/
def scale5125 : Float32 := Float32.finite false 41 (-3)

/-- The bounds the helper gives a layer for a buffer of pixel size `size` at the
device scale factor `s` (lines 80-81): `size` times the binary32 reciprocal of
`s`, in binary32, floored. -/
def scaledBounds (size : gfx.Size) (s : Float32) : gfx.Size :=
  gfx.ToFlooredScaledSize size (Float32.div Float32.one s)

/-- A delegated frame of one render pass with output size 50x30, at scale 1. -/
def sampleDelegatedFrame : cc.CompositorFrame :=
  { metadata := { device_scale_factor := Float32.one }
    delegated_frame_data := some
      { resource_list := [11, 12]
        render_pass_list := [{ output_rect := { x := 0, y := 0, width := 50, height := 30 } }] }
    gl_frame_data := none }

/-- The calls on the helper that the embedder and the compositor make. -/
inductive Event where
  | EnableCompositing (enable : Bool)
  | OnBuffersSwapped (size : gfx.Size) (mailbox_name : List Nat)
      (gpu_route_id gpu_host_id : Int) (device_scale_factor : Float32)
  | OnCompositorFrameSwapped (frame : cc.CompositorFrame) (route_id host_id : Int)
  | DidCommitCompositorFrame
  | MailboxReleased (mailbox : MailboxSwapInfo) (sync_point : Nat) (lost_resource : Bool)
  | UpdateVisibility (visible : Bool)
  | OnContainerDestroy
deriving DecidableEq

/-- One event on the helper: the member function it calls. -/
def step (st : BrowserPluginCompositingHelper) : Event → Except Fault Outcome
  | Event.EnableCompositing enable => st.EnableCompositing enable
  | Event.OnBuffersSwapped size mailbox_name gpu_route_id gpu_host_id device_scale_factor =>
    st.OnBuffersSwapped size mailbox_name gpu_route_id gpu_host_id device_scale_factor
  | Event.OnCompositorFrameSwapped frame route_id host_id =>
    st.OnCompositorFrameSwapped frame route_id host_id
  | Event.DidCommitCompositorFrame => Except.ok st.DidCommitCompositorFrame
  | Event.MailboxReleased mailbox sync_point lost_resource =>
    Except.ok (st.MailboxReleased mailbox sync_point lost_resource)
  | Event.UpdateVisibility visible => Except.ok (st.UpdateVisibility visible)
  | Event.OnContainerDestroy => Except.ok st.OnContainerDestroy

/-- A sequence of events, stopping at the first fault; the calls are collected
in order. -/
def run (st : BrowserPluginCompositingHelper) : List Event → Except Fault Outcome
  | [] => Except.ok (st, [])
  | e :: rest =>
    match step st e with
    | Except.error f => Except.error f
    | Except.ok r1 =>
      match run r1.1 rest with
      | Except.error f => Except.error f
      | Except.ok r2 => Except.ok (r2.1, r1.2 ++ r2.2)

/-- The helpers that a sequence of events produces from a newly constructed one. -/
inductive Reachable : BrowserPluginCompositingHelper → Prop where
  | fresh (container : Option WebPluginContainer) (instance_id host_routing_id : Int) :
      Reachable (BrowserPluginCompositingHelper.new container instance_id host_routing_id)
  | next (st st2 : BrowserPluginCompositingHelper) (e : Event) (calls : List Call) :
      Reachable st → step st e = Except.ok (st2, calls) → Reachable st2

/-- A newly constructed helper with a container, instance 7, routing id 3. -/
def freshHelper : BrowserPluginCompositingHelper :=
  BrowserPluginCompositingHelper.new (some { web_layer := false }) 7 3

/-- The helper after `EnableCompositing (true)` on `freshHelper`. -/
def enabledHelper : BrowserPluginCompositingHelper :=
  { freshHelper with
    background_layer_ := some
      { masks_to_bounds_ := true, background_color_ := some (255, 255, 255, 255),
        children := [] }
    web_layer_ := true
    container_ := some { web_layer := true } }

/-- A texture swap of generation (1, 1): 100x100 pixels at scale 1. -/
def sampleSwapA : Event :=
  Event.OnBuffersSwapped { width := 100, height := 100 } sampleName 1 1 Float32.one

/-- A texture swap of generation (2, 1): 100x100 pixels at scale 5.125. -/
def sampleSwapB : Event :=
  Event.OnBuffersSwapped { width := 100, height := 100 } (115 :: List.replicate 63 0) 2 1
    scale5125

/-- A single-plane frame: `gl_frame_data` with the token `sampleName`, size
100x100 and sync point 5, at scale 1. -/
def sampleGLFrame : cc.CompositorFrame :=
  { metadata := { device_scale_factor := Float32.one }
    delegated_frame_data := none
    gl_frame_data := some
      { mailbox := gpu.Mailbox.SetName sampleName, sync_point := 5,
        size := { width := 100, height := 100 } } }

/-- A helper with a delegated layer that reports the resources 21 and 22 as
unused, and an acknowledgment pending for generation (1, 1). -/
def sampleDelegatedHelper : BrowserPluginCompositingHelper :=
  { sampleHelper with
    background_layer_ := some
      { masks_to_bounds_ := true, background_color_ := some (255, 255, 255, 255),
        children := [LayerKind.delegated] }
    texture_layer_ := none
    delegated_layer_ := some
      { bounds := { width := 100, height := 100 }, is_drawable_ := true,
        contents_opaque_ := true, frame_data := none, unused_resources := [21, 22] } }

/-- A second texture swap of generation (1, 1), with another token. -/
def sampleSwapA2 : Event :=
  Event.OnBuffersSwapped { width := 100, height := 100 } (116 :: List.replicate 63 0) 1 1
    Float32.one

/-- The descriptor that `sampleSwapA` binds into the release callback. -/
def sampleDescriptorA : MailboxSwapInfo :=
  BrowserPluginCompositingHelper.textureSwapInfo { width := 100, height := 100 } sampleName 1 1

/-- A malformed frame: neither `gl_frame_data` nor `delegated_frame_data`. -/
def sampleMalformedFrame : cc.CompositorFrame :=
  { metadata := { device_scale_factor := Float32.one }
    delegated_frame_data := none
    gl_frame_data := none }

/-- A delegated frame whose render-pass list is empty. -/
def sampleEmptyPassFrame : cc.CompositorFrame :=
  { metadata := { device_scale_factor := Float32.one }
    delegated_frame_data := some { resource_list := [], render_pass_list := [] }
    gl_frame_data := none }

/-- An acknowledgment without its kind: a `CompositorFrameACK` with
`gl_frame_data` read as the `BuffersSwappedACK` with the same ids, token and
sync point. -/
def Message.forgetKind : Message → Message
  | Message.CompositorFrameACK routing_id instance_id route_id host_id ack =>
    match ack.gl_frame_data with
    | some gl =>
      Message.BuffersSwappedACK routing_id instance_id route_id host_id gl.mailbox.name
        gl.sync_point
    | none => Message.CompositorFrameACK routing_id instance_id route_id host_id ack
  | msg => msg

/-- A mailbox on the layer without the transport kind of its bound descriptor
and without its sync point. -/
def TextureMailbox.forgetKind (tm : TextureMailbox) : TextureMailbox :=
  { tm with
    callback := tm.callback.map
      (fun m => { m with type := SwapBuffersInfoType.TEXTURE_IMAGE_TRANSPORT })
    sync_point := 0 }

/-- A call without the kind of the message or mailbox it passes. -/
def Call.forgetKind : Call → Call
  | Call.Send msg => Call.Send msg.forgetKind
  | Call.SetTextureMailbox tm => Call.SetTextureMailbox tm.forgetKind
  | c => c

/-- An outcome without the transport kind: the helper with the mailbox on its
texture layer stripped of kind and sync point, and the calls likewise. -/
def Outcome.forgetKind (r : Outcome) : Outcome :=
  ({ r.1 with
      texture_layer_ := r.1.texture_layer_.map
        (fun l => { l with texture_mailbox := l.texture_mailbox.map TextureMailbox.forgetKind }) },
    r.2.map Call.forgetKind)

/-- Whether an event is a call of `OnBuffersSwapped`. -/
def Event.isTextureSwap : Event → Bool
  | Event.OnBuffersSwapped _ _ _ _ _ => true
  | _ => false

/-- Whether an event is a call of `MailboxReleased`. -/
def Event.isRelease : Event → Bool
  | Event.MailboxReleased _ _ _ => true
  | _ => false

/-- The events of a sequence, each with the number of acknowledgments its call
sent, up to the first fault. -/
def ackLog (st : BrowserPluginCompositingHelper) : List Event → List (Event × Nat)
  | [] => []
  | e :: rest =>
    match step st e with
    | Except.error _ => []
    | Except.ok r => (e, (sentMessages r.2).length) :: ackLog r.1 rest

/-- Whether every `MailboxReleased` event of the sequence releases a descriptor
that is in `carried` or that an earlier `OnBuffersSwapped` event of the sequence
carried. -/
def releasesFollowSwaps (carried : List MailboxSwapInfo) : List Event → Bool
  | [] => true
  | Event.OnBuffersSwapped size mailbox_name gpu_route_id gpu_host_id _ :: rest =>
    releasesFollowSwaps
      (BrowserPluginCompositingHelper.textureSwapInfo size mailbox_name gpu_route_id
        gpu_host_id :: carried) rest
  | Event.MailboxReleased mailbox _ _ :: rest =>
    decide (mailbox ∈ carried) && releasesFollowSwaps carried rest
  | _ :: rest => releasesFollowSwaps carried rest

/-- Swap A twice, two releases of its descriptor, swap A again and a lost
release of its descriptor. -/
def sampleSwapsAndReleases : List Event :=
  [sampleSwapA, sampleSwapA, Event.MailboxReleased sampleDescriptorA 9 false,
   Event.MailboxReleased sampleDescriptorA 10 false, sampleSwapA,
   Event.MailboxReleased sampleDescriptorA 11 true]

/-- Whether an event is a swap that carries a buffer: `OnBuffersSwapped`, or
`OnCompositorFrameSwapped` with `gl_frame_data` or `delegated_frame_data`.
These are the calls that reach line 172 or line 278. -/
def Event.carriesBuffer : Event → Bool
  | Event.OnBuffersSwapped _ _ _ _ _ => true
  | Event.OnCompositorFrameSwapped frame _ _ =>
    frame.gl_frame_data.isSome || frame.delegated_frame_data.isSome
  | _ => false

/-- Compositing is enabled on `freshHelper` and swap A arrives twice. -/
def sampleTwoSwaps : List Event :=
  [Event.EnableCompositing true, sampleSwapA, sampleSwapA]

/-- The device scale factor a swap event carries. -/
def Event.scale : Event → Option Float32
  | Event.OnBuffersSwapped _ _ _ _ device_scale_factor => some device_scale_factor
  | Event.OnCompositorFrameSwapped frame _ _ => some frame.metadata.device_scale_factor
  | _ => none

end content

/-! ## chrome/browser/chromeos/login/profile_auth_data.cc -/

namespace net

/-- Modelled from the spec: `net::CanonicalCookie` is declared outside src/;
a cookie is an opaque value. -/
abbrev CanonicalCookie := Nat

/-- The type `net::CookieList`, a vector of cookies. -/
abbrev CookieList := List CanonicalCookie

/-- Modelled from the spec: `net::ChannelIDStore::ChannelID` is declared
outside src/; a channel ID is an opaque value. -/
abbrev ChannelID := Nat

/-- The type `net::ChannelIDStore::ChannelIDList`. -/
abbrev ChannelIDList := List ChannelID

end net

namespace base

/-- Modelled from the spec: `base::Closure` is declared outside src/; `none`
is the null closure, `some n` the closure with the identity `n`. -/
abbrev Closure := Option Nat

end base

namespace chromeos

/-- The functions of the file that post to the UI thread: the `FROM_HERE` of
the two `PostTask` calls (lines 113 and 220). -/
inductive Location where
  | BeginTransfer
  | Finish
deriving DecidableEq

/-- The calls `ProfileAuthDataTransferer` makes on other objects, in the order
of the file: `PostTask` of `completion_callback_` to the UI thread (lines 113
and 220, told apart by `from_here`), `PostTask` of `BeginTransferOnIOThread`
(line 118), `UpdateAllFrom` on the proxy auth cache of `to_context_` (line
139), `SetKeepExpiredCookies` and `GetAllCookiesAsync` on the cookie monster of
`from_context_` (lines 148-149), `GetAllChannelIDs` on the channel ID store of
`from_context_` (line 166), `GetAllCookiesAsync` on the cookie monster of
`to_context_` (line 195), `InitializeFrom` on the cookie monster and on the
channel ID store of `to_context_` (lines 207 and 210), and `delete this` (line
221). -/
inductive Call where
  | PostTask_UI (from_here : Location) (task : base.Closure)
  | PostTask_BeginTransferOnIOThread
  | UpdateAllFrom
  | SetKeepExpiredCookies
  | from_GetAllCookiesAsync
  | from_GetAllChannelIDs
  | to_GetAllCookiesAsync
  | to_CookieMonster_InitializeFrom (list : net.CookieList)
  | to_ChannelIDStore_InitializeFrom (list : net.ChannelIDList)
  | delete_this
deriving DecidableEq

/-- The member functions that run later, as a posted task or as the callback
of a retrieval. -/
inductive Callback where
  | BeginTransferOnIOThread
  | OnCookiesToTransferRetrieved
  | OnChannelIDsToTransferRetrieved
  | OnTargetCookieJarContentsRetrieved
deriving DecidableEq

/-- The data members of `ProfileAuthDataTransferer` (lines 81-90) that the
control flow reads; the two contexts are only the receivers of calls. -/
structure ProfileAuthDataTransferer where
  transfer_auth_cookies_and_channel_ids_ : Bool
  completion_callback_ : base.Closure
  cookies_to_transfer_ : net.CookieList
  channel_ids_to_transfer_ : net.ChannelIDList
  got_cookies_ : Bool
  got_channel_ids_ : Bool
deriving DecidableEq

/-- What one member function does: the object afterwards (`none` after
`delete this`), the calls it made in order, and the callbacks it has bound for
later. -/
structure Effects where
  this : Option ProfileAuthDataTransferer
  calls : List Call
  bound : List Callback
deriving DecidableEq

namespace ProfileAuthDataTransferer

/-- The constructor (lines 93-105). -/
def new (transfer_auth_cookies_and_channel_ids : Bool) (completion_callback : base.Closure) :
    ProfileAuthDataTransferer :=
  { transfer_auth_cookies_and_channel_ids_ := transfer_auth_cookies_and_channel_ids
    completion_callback_ := completion_callback
    cookies_to_transfer_ := []
    channel_ids_to_transfer_ := []
    got_cookies_ := false
    got_channel_ids_ := false }

/-- Member function `BeginTransfer` (lines 107-122). -/
def BeginTransfer (t : ProfileAuthDataTransferer) : Effects :=
  let posted : Effects :=
    if !t.transfer_auth_cookies_and_channel_ids_ then
      { this := some { t with completion_callback_ := none }
        calls := [Call.PostTask_UI Location.BeginTransfer t.completion_callback_]
        bound := [] }
    else { this := some t, calls := [], bound := [] }
  { posted with
    calls := posted.calls ++ [Call.PostTask_BeginTransferOnIOThread]
    bound := [Callback.BeginTransferOnIOThread] }

/-- Member function `Finish` (lines 217-222). -/
def Finish (t : ProfileAuthDataTransferer) : Effects :=
  { this := none
    calls :=
      (if t.completion_callback_.isSome then
        [Call.PostTask_UI Location.Finish t.completion_callback_]
      else []) ++ [Call.delete_this]
    bound := [] }

/-- Member function `TransferProxyAuthCache` (lines 135-141). -/
def TransferProxyAuthCache (t : ProfileAuthDataTransferer) : Effects :=
  { this := some t, calls := [Call.UpdateAllFrom], bound := [] }

/-- Member function `RetrieveCookiesToTransfer` (lines 143-152). -/
def RetrieveCookiesToTransfer (t : ProfileAuthDataTransferer) : Effects :=
  { this := some t
    calls := [Call.SetKeepExpiredCookies, Call.from_GetAllCookiesAsync]
    bound := [Callback.OnCookiesToTransferRetrieved] }

/-- Member function `RetrieveChannelIDsToTransfer` (lines 162-170). -/
def RetrieveChannelIDsToTransfer (t : ProfileAuthDataTransferer) : Effects :=
  { this := some t
    calls := [Call.from_GetAllChannelIDs]
    bound := [Callback.OnChannelIDsToTransferRetrieved] }

/-- Member function `BeginTransferOnIOThread` (lines 124-133). -/
def BeginTransferOnIOThread (t : ProfileAuthDataTransferer) : Effects :=
  let r1 := TransferProxyAuthCache t
  if t.transfer_auth_cookies_and_channel_ids_ then
    let r2 := RetrieveCookiesToTransfer t
    let r3 := RetrieveChannelIDsToTransfer t
    { this := r3.this
      calls := r1.calls ++ r2.calls ++ r3.calls
      bound := r1.bound ++ r2.bound ++ r3.bound }
  else
    let r2 := Finish t
    { this := r2.this, calls := r1.calls ++ r2.calls, bound := r1.bound ++ r2.bound }

/-- Member function `MaybeTransferCookiesAndChannelIDs` (lines 180-198). -/
def MaybeTransferCookiesAndChannelIDs (t : ProfileAuthDataTransferer) : Effects :=
  if !(t.got_cookies_ && t.got_channel_ids_) then
    { this := some t, calls := [], bound := [] }
  else if t.cookies_to_transfer_.length = 0 then Finish t
  else
    { this := some t
      calls := [Call.to_GetAllCookiesAsync]
      bound := [Callback.OnTargetCookieJarContentsRetrieved] }

/-- Member function `OnCookiesToTransferRetrieved` (lines 154-160). -/
def OnCookiesToTransferRetrieved (t : ProfileAuthDataTransferer)
    (cookies_to_transfer : net.CookieList) : Effects :=
  MaybeTransferCookiesAndChannelIDs
    { t with got_cookies_ := true, cookies_to_transfer_ := cookies_to_transfer }

/-- Member function `OnChannelIDsToTransferRetrieved` (lines 172-178). -/
def OnChannelIDsToTransferRetrieved (t : ProfileAuthDataTransferer)
    (channel_ids_to_transfer : net.ChannelIDList) : Effects :=
  MaybeTransferCookiesAndChannelIDs
    { t with channel_ids_to_transfer_ := channel_ids_to_transfer, got_channel_ids_ := true }

/-- Member function `OnTargetCookieJarContentsRetrieved` (lines 200-215). -/
def OnTargetCookieJarContentsRetrieved (t : ProfileAuthDataTransferer)
    (target_cookies : net.CookieList) : Effects :=
  let written : List Call :=
    if target_cookies.isEmpty then
      [Call.to_CookieMonster_InitializeFrom t.cookies_to_transfer_,
       Call.to_ChannelIDStore_InitializeFrom t.channel_ids_to_transfer_]
    else []
  let r := Finish t
  { r with calls := written ++ r.calls }

end ProfileAuthDataTransferer

/-- The run of one callback with the argument it receives. -/
inductive Task where
  | BeginTransferOnIOThread
  | OnCookiesToTransferRetrieved (cookies_to_transfer : net.CookieList)
  | OnChannelIDsToTransferRetrieved (channel_ids_to_transfer : net.ChannelIDList)
  | OnTargetCookieJarContentsRetrieved (target_cookies : net.CookieList)
deriving DecidableEq

/-- The callback a task runs. -/
def Task.callback : Task → Callback
  | Task.BeginTransferOnIOThread => Callback.BeginTransferOnIOThread
  | Task.OnCookiesToTransferRetrieved _ => Callback.OnCookiesToTransferRetrieved
  | Task.OnChannelIDsToTransferRetrieved _ => Callback.OnChannelIDsToTransferRetrieved
  | Task.OnTargetCookieJarContentsRetrieved _ => Callback.OnTargetCookieJarContentsRetrieved

/-- The member function a task runs. -/
def Task.run (t : ProfileAuthDataTransferer) : Task → Effects
  | Task.BeginTransferOnIOThread => t.BeginTransferOnIOThread
  | Task.OnCookiesToTransferRetrieved cookies_to_transfer =>
    t.OnCookiesToTransferRetrieved cookies_to_transfer
  | Task.OnChannelIDsToTransferRetrieved channel_ids_to_transfer =>
    t.OnChannelIDsToTransferRetrieved channel_ids_to_transfer
  | Task.OnTargetCookieJarContentsRetrieved target_cookies =>
    t.OnTargetCookieJarContentsRetrieved target_cookies

/-- A transfer in progress: the object (`none` once deleted), the callbacks
bound and not yet run, and all calls made so far. -/
structure Transfer where
  this : Option ProfileAuthDataTransferer
  bound : List Callback
  calls : List Call
deriving DecidableEq

/-- The function `ProfileAuthData::Transfer` (lines 226-236): construct the
transferer and call `BeginTransfer`. -/
def ProfileAuthData.Transfer (transfer_auth_cookies_and_channel_ids : Bool)
    (completion_callback : base.Closure) : Transfer :=
  let r := (ProfileAuthDataTransferer.new transfer_auth_cookies_and_channel_ids
    completion_callback).BeginTransfer
  { this := r.this, bound := r.bound, calls := r.calls }

/-- One step of a transfer: a bound callback runs, once.  A task whose
callback is not bound cannot run, and a callback on a deleted object has no
defined behaviour; both give `none`. -/
def Transfer.step (w : Transfer) (task : Task) : Option Transfer :=
  if task.callback ∈ w.bound then
    match w.this with
    | none => none
    | some t =>
      let r := task.run t
      some
        { this := r.this
          bound := w.bound.erase task.callback ++ r.bound
          calls := w.calls ++ r.calls }
  else none

/-- The steps of a list of tasks, in order. -/
def Transfer.steps (w : Transfer) : List Task → Option Transfer
  | [] => some w
  | task :: rest =>
    match w.step task with
    | none => none
    | some w2 => w2.steps rest

/-- Whether a call posts to the UI thread. -/
def Call.isPostTask_UI : Call → Bool
  | Call.PostTask_UI _ _ => true
  | _ => false

/-- Whether a call writes cookies or channel IDs into the target context. -/
def Call.writesTarget : Call → Bool
  | Call.to_CookieMonster_InitializeFrom _ => true
  | Call.to_ChannelIDStore_InitializeFrom _ => true
  | _ => false

/-- The orders in which the callbacks of a transfer can run, given the flag
`transfer_auth_cookies_and_channel_ids`. -/
def possibleTasks (flag : Bool) (tasks : List Task) : Prop :=
  tasks = [] ∨ tasks = [Task.BeginTransferOnIOThread]
    ∨ (flag = true ∧
      ((∃ c, tasks = [Task.BeginTransferOnIOThread, Task.OnCookiesToTransferRetrieved c])
        ∨ (∃ i, tasks = [Task.BeginTransferOnIOThread, Task.OnChannelIDsToTransferRetrieved i])
        ∨ (∃ c i, tasks = [Task.BeginTransferOnIOThread, Task.OnCookiesToTransferRetrieved c,
            Task.OnChannelIDsToTransferRetrieved i])
        ∨ (∃ c i, tasks = [Task.BeginTransferOnIOThread, Task.OnChannelIDsToTransferRetrieved i,
            Task.OnCookiesToTransferRetrieved c])
        ∨ (∃ c i x, c ≠ [] ∧ tasks = [Task.BeginTransferOnIOThread,
            Task.OnCookiesToTransferRetrieved c, Task.OnChannelIDsToTransferRetrieved i,
            Task.OnTargetCookieJarContentsRetrieved x])
        ∨ (∃ c i x, c ≠ [] ∧ tasks = [Task.BeginTransferOnIOThread,
            Task.OnChannelIDsToTransferRetrieved i, Task.OnCookiesToTransferRetrieved c,
            Task.OnTargetCookieJarContentsRetrieved x])))

/-- A complete transfer with the flag set: cookies `[5]` and channel IDs `[6]`
are retrieved and the target cookie jar is found empty. -/
def sampleTasks : List Task :=
  [Task.BeginTransferOnIOThread, Task.OnCookiesToTransferRetrieved [5],
   Task.OnChannelIDsToTransferRetrieved [6], Task.OnTargetCookieJarContentsRetrieved []]

/-- The transfer after `sampleTasks`, started with the flag set and the
callback `some 1`. -/
def sampleFinished : Transfer :=
  { this := none
    bound := []
    calls :=
      [Call.PostTask_BeginTransferOnIOThread, Call.UpdateAllFrom, Call.SetKeepExpiredCookies,
       Call.from_GetAllCookiesAsync, Call.from_GetAllChannelIDs, Call.to_GetAllCookiesAsync,
       Call.to_CookieMonster_InitializeFrom [5], Call.to_ChannelIDStore_InitializeFrom [6],
       Call.PostTask_UI Location.Finish (some 1), Call.delete_this] }

/-- The transfer after `BeginTransferOnIOThread`, started with the flag clear
and the callback `some 1`. -/
def sampleFinishedProxyOnly : Transfer :=
  { this := none
    bound := []
    calls :=
      [Call.PostTask_UI Location.BeginTransfer (some 1),
       Call.PostTask_BeginTransferOnIOThread, Call.UpdateAllFrom, Call.delete_this] }

end chromeos

namespace content

/-! ## Theorems -/

namespace BrowserPluginCompositingHelper

/-- C1: when the descriptor's ids are the current generation and an
acknowledgment is pending, `MailboxReleased (m, sync_point, false)` makes exactly
one call, the `Send` of one acknowledgment; it is a `BuffersSwappedACK` for
`TEXTURE_IMAGE_TRANSPORT` and a `CompositorFrameACK` with `gl_frame_data` for
`COMPOSITOR_FRAME`, carries the token of `m` unchanged, the ids of `m` and the
sync point; afterwards `ack_pending_` is false and nothing else has changed. -/
theorem MailboxReleased_sends_one_ack (st : BrowserPluginCompositingHelper)
    (m : MailboxSwapInfo) (sync_point : Nat)
    (hroute : m.route_id = st.last_route_id_) (hhost : m.host_id = st.last_host_id_)
    (hpending : st.ack_pending_ = true) :
    MailboxReleased st m sync_point false
        = ({ st with ack_pending_ := false }, [Call.Send (ackFor st m sync_point)])
      ∧ (ackFor st m sync_point).mailbox_name = some m.name.name
      ∧ (ackFor st m sync_point).sync_point = some sync_point
      ∧ (ackFor st m sync_point).route_id = m.route_id
      ∧ (ackFor st m sync_point).host_id = m.host_id
      ∧ (m.type = SwapBuffersInfoType.TEXTURE_IMAGE_TRANSPORT →
          ackFor st m sync_point = Message.BuffersSwappedACK st.host_routing_id_
            st.instance_id_ m.route_id m.host_id m.name.name sync_point)
      ∧ (m.type = SwapBuffersInfoType.COMPOSITOR_FRAME →
          ackFor st m sync_point = Message.CompositorFrameACK st.host_routing_id_
            st.instance_id_ m.route_id m.host_id
            { resources := []
              gl_frame_data := some
                { mailbox := m.name, size := m.size, sync_point := sync_point } }) := by
  refine ⟨?_, ?_, ?_, ?_, ?_, ?_, ?_⟩
  · simp [MailboxReleased, MailboxReleasedNotLost, hroute, hhost, hpending]
  · unfold ackFor; cases m.type <;> rfl
  · unfold ackFor; cases m.type <;> rfl
  · unfold ackFor; cases m.type <;> rfl
  · unfold ackFor; cases m.type <;> rfl
  · intro h; simp [ackFor, h]
  · intro h; simp [ackFor, h]

/-- Witness of C1: releasing `sampleMailbox` on `sampleHelper` with sync point 5. -/
theorem MailboxReleased_sends_one_ack_witness :
    MailboxReleased sampleHelper sampleMailbox 5 false
      = ({ sampleHelper with ack_pending_ := false },
          [Call.Send (Message.BuffersSwappedACK 3 7 1 1 sampleName 5)]) :=
  (MailboxReleased_sends_one_ack sampleHelper sampleMailbox 5 rfl rfl rfl).1

/-- C2: a release whose route id or host id is not the current generation makes
no call and leaves the helper unchanged, lost or not. -/
theorem MailboxReleased_stale_generation (st : BrowserPluginCompositingHelper)
    (m : MailboxSwapInfo) (sync_point : Nat) (lost : Bool)
    (hstale : m.route_id ≠ st.last_route_id_ ∨ m.host_id ≠ st.last_host_id_) :
    MailboxReleased st m sync_point lost = (st, []) := by
  have h : st.last_host_id_ ≠ m.host_id ∨ st.last_route_id_ ≠ m.route_id := by
    rcases hstale with h | h
    · exact Or.inr (fun e => h e.symm)
    · exact Or.inl (fun e => h e.symm)
  cases lost <;> simp [MailboxReleased, MailboxReleasedNotLost, empty_info, h]

/-- Witness of C2: a lost release for route 2 while the generation is (1, 1). -/
theorem MailboxReleased_stale_generation_witness :
    MailboxReleased sampleHelper { sampleMailbox with route_id := 2 } 5 true
      = (sampleHelper, []) :=
  MailboxReleased_stale_generation sampleHelper { sampleMailbox with route_id := 2 } 5 true
    (Or.inl (by decide))

/-- C3: with no acknowledgment pending, a release of the current generation
that is not lost makes no call, sets `last_mailbox_valid_` to false and changes
nothing else. -/
theorem MailboxReleased_not_pending (st : BrowserPluginCompositingHelper)
    (m : MailboxSwapInfo) (sync_point : Nat)
    (hroute : m.route_id = st.last_route_id_) (hhost : m.host_id = st.last_host_id_)
    (hpending : st.ack_pending_ = false) :
    MailboxReleased st m sync_point false = ({ st with last_mailbox_valid_ := false }, []) := by
  simp [MailboxReleased, MailboxReleasedNotLost, hroute, hhost, hpending]

/-- Witness of C3: a late release on `sampleHelper` once its acknowledgment is out. -/
theorem MailboxReleased_not_pending_witness :
    MailboxReleased { sampleHelper with ack_pending_ := false } sampleMailbox 5 false
      = ({ sampleHelper with ack_pending_ := false, last_mailbox_valid_ := false }, []) :=
  MailboxReleased_not_pending { sampleHelper with ack_pending_ := false } sampleMailbox 5
    rfl rfl rfl

/-- C4: a lost release is the release, not lost, of the descriptor `empty_info m`
(type and ids of `m`, the all-zero token) at sync point 0; so every
acknowledgment it sends carries the all-zero token and sync point 0, which is
not the token of `m` when that one is not empty. -/
theorem MailboxReleased_lost (st : BrowserPluginCompositingHelper) (m : MailboxSwapInfo)
    (sync_point : Nat) :
    MailboxReleased st m sync_point true = MailboxReleased st (empty_info m) 0 false
      ∧ (empty_info m).name = gpu.Mailbox.zero
      ∧ (empty_info m).type = m.type
      ∧ (empty_info m).route_id = m.route_id
      ∧ (empty_info m).host_id = m.host_id
      ∧ ∀ msg ∈ sentMessages (MailboxReleased st m sync_point true).2,
          msg.mailbox_name = some gpu.Mailbox.zero.name
            ∧ msg.sync_point = some 0
            ∧ (m.name.IsZero = false → msg.mailbox_name ≠ some m.name.name) := by
  refine ⟨rfl, rfl, rfl, rfl, rfl, ?_⟩
  intro msg hmsg
  have hname : msg.mailbox_name = some gpu.Mailbox.zero.name ∧ msg.sync_point = some 0 := by
    simp only [MailboxReleased, MailboxReleasedNotLost, empty_info, if_true] at hmsg
    split at hmsg
    · simp [sentMessages] at hmsg
    · split at hmsg
      · simp [sentMessages] at hmsg
      · cases hty : m.type <;> simp [ackFor, hty, sentMessages] at hmsg <;> subst hmsg <;>
          exact ⟨rfl, rfl⟩
  refine ⟨hname.1, hname.2, ?_⟩
  intro hz heq
  rw [hname.1] at heq
  have : m.name.IsZero = true := by
    unfold gpu.Mailbox.IsZero
    rw [← Option.some.inj heq]
    decide
  rw [hz] at this
  exact Bool.noConfusion this

/-- With a root holder `OnBuffersSwappedPrivate` returns normally, and what it
returns is `swapWithRoot`. -/
theorem OnBuffersSwappedPrivate_root (st : BrowserPluginCompositingHelper)
    (background : SolidColorLayer) (m : MailboxSwapInfo) (sync_point : Nat)
    (device_scale_factor : Float32) (hroot : st.background_layer_ = some background) :
    OnBuffersSwappedPrivate st m sync_point device_scale_factor
      = Except.ok (swapWithRoot st background m sync_point device_scale_factor) := by
  by_cases h1 : st.last_route_id_ = m.route_id <;>
  by_cases h2 : st.last_host_id_ = m.host_id <;>
  cases hlv : st.last_mailbox_valid_ <;>
  cases htex : st.texture_layer_ <;>
  by_cases hsz : st.buffer_size_ = m.size <;>
  cases hz : m.name.IsZero <;>
  simp [OnBuffersSwappedPrivate, swapWithRoot, adoptGeneration, ensureTextureLayer,
    CheckSizeAndAdjustLayerBounds, MailboxReleased, MailboxReleasedNotLost, empty_info,
    ackFor, hroot, h1, h2, hlv, htex, hsz, hz]

/-- Witness of C4: the lost release of `sampleMailbox` on `sampleHelper` sends
one acknowledgment, with the all-zero token and sync point 0. -/
theorem MailboxReleased_lost_witness :
    sentMessages (MailboxReleased sampleHelper sampleMailbox 5 true).2
        = [Message.BuffersSwappedACK 3 7 1 1 gpu.Mailbox.zero.name 0]
      ∧ (Message.BuffersSwappedACK 3 7 1 1 gpu.Mailbox.zero.name 0).mailbox_name
          ≠ some sampleMailbox.name.name :=
  ⟨by decide,
    ((MailboxReleased_lost sampleHelper sampleMailbox 5).2.2.2.2.2
      (Message.BuffersSwappedACK 3 7 1 1 gpu.Mailbox.zero.name 0) (by decide)).2.2
      (by decide)⟩

/-- Without a root holder `OnBuffersSwappedPrivate` is the fast acknowledgment:
one `Send`, and only the generation fields and `ack_pending_` are written. -/
theorem OnBuffersSwappedPrivate_no_root (st : BrowserPluginCompositingHelper)
    (m : MailboxSwapInfo) (sync_point : Nat) (s : Float32)
    (hroot : st.background_layer_ = none) :
    OnBuffersSwappedPrivate st m sync_point s
      = Except.ok ({ adoptGeneration st m with ack_pending_ := false },
          [Call.Send (ackFor st m sync_point)]) := by
  simp [OnBuffersSwappedPrivate, adoptGeneration, hroot, MailboxReleased,
    MailboxReleasedNotLost, ackFor]

/-- C5: with a root holder, when the incoming ids are not the current generation
or `last_mailbox_valid_` is false, `OnBuffersSwapped` returns normally and sends
exactly one acknowledgment: a `BuffersSwappedACK` with the all-zero token, sync
point 0 and the incoming route and host ids.  No mailbox is installed on the
layer before it; when the incoming token is empty nothing follows it and the
layer's mailbox is what it was. -/
theorem OnBuffersSwapped_forced_release (st : BrowserPluginCompositingHelper)
    (background : SolidColorLayer) (size : gfx.Size) (mailbox_name : List Nat)
    (gpu_route_id gpu_host_id : Int) (device_scale_factor : Float32)
    (hroot : st.background_layer_ = some background)
    (hgen : (gpu_route_id, gpu_host_id) ≠ (st.last_route_id_, st.last_host_id_)
      ∨ st.last_mailbox_valid_ = false) :
    ∃ st2 pre post,
      OnBuffersSwapped st size mailbox_name gpu_route_id gpu_host_id device_scale_factor
          = Except.ok (st2, pre ++ Call.Send (Message.BuffersSwappedACK st.host_routing_id_
              st.instance_id_ gpu_route_id gpu_host_id gpu.Mailbox.zero.name 0) :: post)
        ∧ sentMessages pre = [] ∧ sentMessages post = []
        ∧ (∀ c ∈ pre, c.isSetTextureMailbox = false)
        ∧ ((gpu.Mailbox.SetName mailbox_name).IsZero = true →
            post = [] ∧ st2.installedMailbox = st.installedMailbox)
        ∧ ((gpu.Mailbox.SetName mailbox_name).IsZero = false →
            ∃ tm, post = [Call.SetTextureMailbox tm, Call.SetNeedsDisplay]) := by
  have hvalid : ¬ ((st.last_route_id_ = gpu_route_id ∧ st.last_host_id_ = gpu_host_id)
      ∧ st.last_mailbox_valid_ = true) := by
    rintro ⟨⟨e1, e2⟩, e3⟩
    rcases hgen with h | h
    · exact h (by rw [e1, e2])
    · rw [e3] at h; exact Bool.noConfusion h
  unfold OnBuffersSwapped
  rw [OnBuffersSwappedPrivate_root st background _ 0 device_scale_factor hroot]
  refine ⟨(swapWithRoot st background
      (textureSwapInfo size mailbox_name gpu_route_id gpu_host_id) 0 device_scale_factor).1,
    (match st.texture_layer_ with
      | some _ => []
      | none =>
        [Call.TextureLayer_CreateForMailbox, Call.SetIsDrawable LayerKind.texture true,
         Call.SetContentsOpaque LayerKind.texture true, Call.AddChild LayerKind.texture]) ++
    (if st.buffer_size_ = size then []
      else [Call.SetBounds LayerKind.texture
        (gfx.ToFlooredScaledSize size (Float32.div Float32.one device_scale_factor))]),
    (if (gpu.Mailbox.SetName mailbox_name).IsZero then []
      else [Call.SetTextureMailbox
        { name := gpu.Mailbox.SetName mailbox_name
          callback := some (textureSwapInfo size mailbox_name gpu_route_id gpu_host_id)
          sync_point := 0 }, Call.SetNeedsDisplay]),
    ?_, ?_, ?_, ?_, ?_, ?_⟩ <;>
  cases htex : st.texture_layer_ <;>
  by_cases hsz : st.buffer_size_ = size <;>
  cases hz : (gpu.Mailbox.SetName mailbox_name).IsZero <;>
  simp [swapWithRoot, textureSwapInfo, hvalid, htex, hsz, hz, ackFor, empty_info, MailboxSwapInfo.default,
    sentMessages, Call.isSetTextureMailbox, installedMailbox, TextureLayer.CreateForMailbox]

/-- Witness of C5: a swap of generation (2, 1) on `sampleHelper`, whose
generation is (1, 1). -/
theorem OnBuffersSwapped_forced_release_witness :
    ∃ st2 pre post,
      OnBuffersSwapped sampleHelper { width := 50, height := 50 } sampleName 2 1 Float32.one
          = Except.ok (st2, pre ++ Call.Send (Message.BuffersSwappedACK 3 7 2 1
              gpu.Mailbox.zero.name 0) :: post)
        ∧ sentMessages pre = [] ∧ sentMessages post = []
        ∧ (∀ c ∈ pre, c.isSetTextureMailbox = false)
        ∧ ((gpu.Mailbox.SetName sampleName).IsZero = true →
            post = [] ∧ st2.installedMailbox = sampleHelper.installedMailbox)
        ∧ ((gpu.Mailbox.SetName sampleName).IsZero = false →
            ∃ tm, post = [Call.SetTextureMailbox tm, Call.SetNeedsDisplay]) :=
  OnBuffersSwapped_forced_release sampleHelper _ { width := 50, height := 50 } sampleName 2 1
    Float32.one rfl (Or.inl (by decide))

/-- C6: without a root holder a texture swap returns normally and its only call
is the `Send` of one acknowledgment carrying the incoming token, the incoming
route and host ids and the incoming sync point; no layer is created,
`buffer_size_` is unchanged, `ack_pending_` ends false and the last ids are the
incoming ones.  This holds for `OnBuffersSwappedPrivate` with any descriptor and
sync point; `OnBuffersSwapped` calls it with sync point 0 and sends a
`BuffersSwappedACK` with the 64 bytes that `SetName` has copied, which are the
first 64 bytes of a string of 64 bytes or more. -/
theorem OnBuffersSwapped_fast_ack (st : BrowserPluginCompositingHelper)
    (hroot : st.background_layer_ = none) :
    (∀ (m : MailboxSwapInfo) (sync_point : Nat) (s : Float32),
        ∃ st2,
          OnBuffersSwappedPrivate st m sync_point s
              = Except.ok (st2, [Call.Send (ackFor st m sync_point)])
            ∧ (ackFor st m sync_point).mailbox_name = some m.name.name
            ∧ (ackFor st m sync_point).sync_point = some sync_point
            ∧ (ackFor st m sync_point).route_id = m.route_id
            ∧ (ackFor st m sync_point).host_id = m.host_id
            ∧ st2.background_layer_ = none
            ∧ st2.texture_layer_ = st.texture_layer_
            ∧ st2.delegated_layer_ = st.delegated_layer_
            ∧ st2.buffer_size_ = st.buffer_size_
            ∧ st2.ack_pending_ = false
            ∧ st2.last_route_id_ = m.route_id
            ∧ st2.last_host_id_ = m.host_id)
      ∧ (∀ (size : gfx.Size) (mailbox_name : List Nat) (gpu_route_id gpu_host_id : Int)
          (s : Float32),
          ∃ st2,
            OnBuffersSwapped st size mailbox_name gpu_route_id gpu_host_id s
                = Except.ok (st2, [Call.Send (Message.BuffersSwappedACK st.host_routing_id_
                    st.instance_id_ gpu_route_id gpu_host_id
                    (gpu.Mailbox.SetName mailbox_name).name 0)])
              ∧ (gpu.Mailbox.SetName mailbox_name).name.length = 64
              ∧ (64 ≤ mailbox_name.length →
                  (gpu.Mailbox.SetName mailbox_name).name = mailbox_name.take 64)
              ∧ (mailbox_name.length = 64 →
                  (gpu.Mailbox.SetName mailbox_name).name = mailbox_name)
              ∧ st2.background_layer_ = none
              ∧ st2.texture_layer_ = st.texture_layer_
              ∧ st2.delegated_layer_ = st.delegated_layer_
              ∧ st2.buffer_size_ = st.buffer_size_
              ∧ st2.ack_pending_ = false
              ∧ st2.last_route_id_ = gpu_route_id
              ∧ st2.last_host_id_ = gpu_host_id) := by
  constructor
  · intro m sync_point s
    refine ⟨{ adoptGeneration st m with ack_pending_ := false },
      OnBuffersSwappedPrivate_no_root st m sync_point s hroot,
      ?_, ?_, ?_, ?_, hroot, rfl, rfl, rfl, rfl, rfl, rfl⟩ <;>
    · unfold ackFor
      cases m.type <;> rfl
  · intro size mailbox_name gpu_route_id gpu_host_id s
    refine ⟨{ adoptGeneration st (textureSwapInfo size mailbox_name gpu_route_id gpu_host_id)
              with ack_pending_ := false },
      OnBuffersSwappedPrivate_no_root st _ 0 s hroot, ?_, ?_, ?_,
      hroot, rfl, rfl, rfl, rfl, rfl, rfl⟩
    · simp [gpu.Mailbox.SetName]
    · intro hlen
      simp [gpu.Mailbox.SetName, List.take_append_of_le_length hlen]
    · intro hlen
      simp [gpu.Mailbox.SetName, List.take_append_of_le_length (Nat.le_of_eq hlen.symm),
        List.take_of_length_le (Nat.le_of_eq hlen)]

/-- Witness of C6: a swap on a newly constructed helper, which has no root
holder yet. -/
theorem OnBuffersSwapped_fast_ack_witness :
    ∃ st2,
      OnBuffersSwapped freshHelper { width := 100, height := 100 } sampleName 1 1 Float32.one
          = Except.ok (st2, [Call.Send (Message.BuffersSwappedACK 3 7 1 1 sampleName 0)])
        ∧ st2.background_layer_ = none
        ∧ st2.texture_layer_ = none
        ∧ st2.delegated_layer_ = none
        ∧ st2.buffer_size_ = { width := 0, height := 0 }
        ∧ st2.ack_pending_ = false
        ∧ st2.last_route_id_ = 1
        ∧ st2.last_host_id_ = 1 := by
  obtain ⟨st2, h, _, _, _, h2⟩ := (OnBuffersSwapped_fast_ack freshHelper rfl).2
    { width := 100, height := 100 } sampleName 1 1 Float32.one
  exact ⟨st2, h, h2⟩

/-- A normal return determines the helper and the calls. -/
theorem ok_outcome_inj {r : Outcome} {st2 : BrowserPluginCompositingHelper} {calls : List Call}
    (h : (Except.ok r : Except Fault Outcome) = Except.ok (st2, calls)) :
    st2 = r.1 ∧ calls = r.2 := by
  cases h
  exact ⟨rfl, rfl⟩

/-- The delegated path of `OnCompositorFrameSwapped`, once the delegated layer
exists: what it returns for a frame with a last render pass. -/
theorem OnCompositorFrameSwapped_delegated (st : BrowserPluginCompositingHelper)
    (frame : cc.CompositorFrame) (data : cc.DelegatedFrameData) (pass : cc.RenderPass)
    (route_id host_id : Int) (r1 : Outcome) (l : DelegatedRendererLayer)
    (hgl : frame.gl_frame_data = none) (hdata : frame.delegated_frame_data = some data)
    (hpass : data.render_pass_list.getLast? = some pass)
    (hensure : ensureDelegatedLayer st = Except.ok r1)
    (hl : r1.1.delegated_layer_ = some l) :
    OnCompositorFrameSwapped st frame route_id host_id
      = Except.ok
          ({ r1.1 with
              buffer_size_ := pass.output_rect.size
              delegated_layer_ := some
                { l with
                  bounds :=
                    if r1.1.buffer_size_ = pass.output_rect.size then l.bounds
                    else scaledBounds pass.output_rect.size frame.metadata.device_scale_factor
                  frame_data := some data }
              last_route_id_ := route_id
              last_host_id_ := host_id
              ack_pending_ := true },
            r1.2 ++
              (if r1.1.buffer_size_ = pass.output_rect.size then []
                else [Call.SetBounds LayerKind.delegated
                  (scaledBounds pass.output_rect.size frame.metadata.device_scale_factor)]) ++
              [Call.SetFrameData data]) := by
  by_cases hsz : r1.1.buffer_size_ = pass.output_rect.size <;>
  simp [OnCompositorFrameSwapped, CheckSizeAndAdjustLayerBounds, scaledBounds, hgl, hdata,
    hpass, hensure, hl, hsz]

/-- C10, the code at the failing input: after `EnableCompositing (true)`, one
texture swap and one delegated frame, the helper returns normally and holds
both a texture layer and a delegated layer, both attached to the root holder;
the condition of the `DCHECK` at line 257 is false when the delegated frame
arrives. -/
theorem delegated_swap_keeps_texture_layer :
    (run freshHelper [Event.EnableCompositing true, sampleSwapA]).toOption.map
        (fun r => r.1.OnCompositorFrameSwapped_DCHECK) = some false
      ∧ (run freshHelper [Event.EnableCompositing true, sampleSwapA,
          Event.OnCompositorFrameSwapped sampleDelegatedFrame 1 1]).toOption.map
            (fun r => (r.1.texture_layer_.isSome, r.1.delegated_layer_.isSome,
              r.1.background_layer_.map (fun l => l.children)))
          = some (true, true, some [LayerKind.texture, LayerKind.delegated]) := by
  constructor <;> decide

/-- C11, the code at the failing input: after `EnableCompositing (true)` and one
delegated frame, the condition of the `DCHECK` at line 161 is false; a texture
swap, or a single-plane frame, then returns normally and the helper holds both
a delegated layer and a texture layer, both attached to the root holder. -/
theorem texture_swap_keeps_delegated_layer :
    (run freshHelper [Event.EnableCompositing true,
        Event.OnCompositorFrameSwapped sampleDelegatedFrame 1 1]).toOption.map
        (fun r => r.1.OnBuffersSwappedPrivate_DCHECK) = some false
      ∧ (run freshHelper [Event.EnableCompositing true,
          Event.OnCompositorFrameSwapped sampleDelegatedFrame 1 1, sampleSwapA]).toOption.map
            (fun r => (r.1.texture_layer_.isSome, r.1.delegated_layer_.isSome,
              r.1.background_layer_.map (fun l => l.children)))
          = some (true, true, some [LayerKind.delegated, LayerKind.texture])
      ∧ (run freshHelper [Event.EnableCompositing true,
          Event.OnCompositorFrameSwapped sampleDelegatedFrame 1 1,
          Event.OnCompositorFrameSwapped sampleGLFrame 1 1]).toOption.map
            (fun r => (r.1.texture_layer_.isSome, r.1.delegated_layer_.isSome,
              r.1.background_layer_.map (fun l => l.children)))
          = some (true, true, some [LayerKind.delegated, LayerKind.texture]) := by
  refine ⟨?_, ?_, ?_⟩ <;> decide

/-- C12: `DidCommitCompositorFrame` sends a message exactly when a delegated
layer exists and `ack_pending_` is true.  Then it takes the layer's unused
resources and sends one `CompositorFrameACK` addressed to the last route and
host id that carries exactly these resources, and `ack_pending_` becomes
false; otherwise it makes no call and returns the helper as it is.  A second
call directly after the first makes no call and changes nothing. -/
theorem DidCommitCompositorFrame_acks (st : BrowserPluginCompositingHelper) :
    (sentMessages (DidCommitCompositorFrame st).2 ≠ []
        ↔ st.delegated_layer_.isSome = true ∧ st.ack_pending_ = true)
      ∧ (∀ l, st.delegated_layer_ = some l → st.ack_pending_ = true →
          DidCommitCompositorFrame st
            = ({ st with
                  delegated_layer_ := some { l with unused_resources := [] }
                  ack_pending_ := false },
                [Call.TakeUnusedResourcesForChildCompositor,
                 Call.Send (Message.CompositorFrameACK st.host_routing_id_ st.instance_id_
                   st.last_route_id_ st.last_host_id_
                   { resources := l.unused_resources, gl_frame_data := none })]))
      ∧ (¬ (st.delegated_layer_.isSome = true ∧ st.ack_pending_ = true) →
          DidCommitCompositorFrame st = (st, []))
      ∧ DidCommitCompositorFrame (DidCommitCompositorFrame st).1
          = ((DidCommitCompositorFrame st).1, []) := by
  cases hdel : st.delegated_layer_ <;> cases hp : st.ack_pending_ <;>
    simp [DidCommitCompositorFrame, hdel, hp, sentMessages]

/-- Witness of C12: the commit on `sampleDelegatedHelper` sends one
`CompositorFrameACK` for generation (1, 1) with the resources 21 and 22. -/
theorem DidCommitCompositorFrame_acks_witness :
    sentMessages (DidCommitCompositorFrame sampleDelegatedHelper).2
        = [Message.CompositorFrameACK 3 7 1 1 { resources := [21, 22], gl_frame_data := none }]
      ∧ (DidCommitCompositorFrame sampleDelegatedHelper).1.ack_pending_ = false :=
  have h := (DidCommitCompositorFrame_acks sampleDelegatedHelper).2.1 _ rfl rfl
  ⟨by rw [h]; rfl, by rw [h]⟩

/-- C13: with a root holder, `OnCompositorFrameSwapped` for a frame without
`gl_frame_data` whose delegated data has a non-empty render-pass list returns
normally, hands the data to the delegated layer (`SetFrameData`), sets the last
route and host id to the arguments and `ack_pending_` to true, sends no message
and leaves `last_mailbox_valid_` as it is. -/
theorem OnCompositorFrameSwapped_hands_over (st : BrowserPluginCompositingHelper)
    (background : SolidColorLayer) (frame : cc.CompositorFrame)
    (data : cc.DelegatedFrameData) (route_id host_id : Int)
    (hroot : st.background_layer_ = some background)
    (hgl : frame.gl_frame_data = none) (hdata : frame.delegated_frame_data = some data)
    (hpasses : data.render_pass_list ≠ []) :
    ∃ st2 calls,
      OnCompositorFrameSwapped st frame route_id host_id = Except.ok (st2, calls)
        ∧ st2.delegated_layer_.map (fun l => l.frame_data) = some (some data)
        ∧ Call.SetFrameData data ∈ calls
        ∧ st2.last_route_id_ = route_id
        ∧ st2.last_host_id_ = host_id
        ∧ st2.ack_pending_ = true
        ∧ sentMessages calls = []
        ∧ st2.last_mailbox_valid_ = st.last_mailbox_valid_ := by
  obtain ⟨pass, hpass⟩ : ∃ pass, data.render_pass_list.getLast? = some pass := by
    cases h : data.render_pass_list.getLast? with
    | none => exact absurd (List.getLast?_eq_none_iff.mp h) hpasses
    | some pass => exact ⟨pass, rfl⟩
  cases hdel : st.delegated_layer_ with
  | some l =>
    have hens : ensureDelegatedLayer st = Except.ok (st, []) := by
      simp [ensureDelegatedLayer, hdel]
    rw [OnCompositorFrameSwapped_delegated st frame data pass route_id host_id (st, []) l
      hgl hdata hpass hens hdel]
    refine ⟨_, _, rfl, rfl, ?_, rfl, rfl, rfl, ?_, rfl⟩
    · simp
    · by_cases hsz : st.buffer_size_ = pass.output_rect.size <;> simp [hsz, sentMessages]
  | none =>
    have hens : ensureDelegatedLayer st = Except.ok
        ({ st with
            delegated_layer_ := some
              { DelegatedRendererLayer.Create with
                is_drawable_ := true, contents_opaque_ := true }
            background_layer_ := some
              { background with children := background.children ++ [LayerKind.delegated] } },
          [Call.DelegatedRendererLayer_Create, Call.SetIsDrawable LayerKind.delegated true,
           Call.SetContentsOpaque LayerKind.delegated true,
           Call.AddChild LayerKind.delegated]) := by
      simp [ensureDelegatedLayer, hdel, hroot]
    rw [OnCompositorFrameSwapped_delegated st frame data pass route_id host_id _ _
      hgl hdata hpass hens rfl]
    refine ⟨_, _, rfl, rfl, ?_, rfl, rfl, rfl, ?_, rfl⟩
    · simp
    · by_cases hsz : st.buffer_size_ = pass.output_rect.size <;> simp [hsz, sentMessages]

/-- Witness of C13: the delegated frame `sampleDelegatedFrame` of generation
(4, 2) on `sampleDelegatedHelper`. -/
theorem OnCompositorFrameSwapped_hands_over_witness :
    ∃ st2 calls,
      OnCompositorFrameSwapped sampleDelegatedHelper sampleDelegatedFrame 4 2
          = Except.ok (st2, calls)
        ∧ st2.delegated_layer_.map (fun l => l.frame_data)
            = some sampleDelegatedFrame.delegated_frame_data
        ∧ st2.last_route_id_ = 4
        ∧ st2.last_host_id_ = 2
        ∧ st2.ack_pending_ = true
        ∧ sentMessages calls = []
        ∧ st2.last_mailbox_valid_ = true := by
  obtain ⟨st2, calls, h, h1, _, h2⟩ :=
    OnCompositorFrameSwapped_hands_over sampleDelegatedHelper _ sampleDelegatedFrame _ 4 2
      rfl rfl rfl (by decide)
  exact ⟨st2, calls, h, h1, h2⟩

/-- C17: `OnContainerDestroy` unbinds the web layer from the container when
there is a container (`setWebLayer (NULL)`) and makes no other call, so it
sends no message; afterwards the container reference, the root holder, the
texture layer, the delegated layer and the web layer are all absent and
nothing else has changed.  A second call makes no call and changes nothing. -/
theorem OnContainerDestroy_clears (st : BrowserPluginCompositingHelper) :
    (OnContainerDestroy st).1
        = { st with
            container_ := none, background_layer_ := none, texture_layer_ := none,
            delegated_layer_ := none, web_layer_ := false }
      ∧ (∀ c, st.container_ = some c → (OnContainerDestroy st).2 = [Call.setWebLayer false])
      ∧ (st.container_ = none → (OnContainerDestroy st).2 = [])
      ∧ sentMessages (OnContainerDestroy st).2 = []
      ∧ OnContainerDestroy (OnContainerDestroy st).1 = ((OnContainerDestroy st).1, []) := by
  cases hc : st.container_ <;> simp [OnContainerDestroy, hc, sentMessages]

/-- Witness of C17: the teardown of `sampleHelper`, which has a container. -/
theorem OnContainerDestroy_clears_witness :
    (OnContainerDestroy sampleHelper).2 = [Call.setWebLayer false]
      ∧ (OnContainerDestroy sampleHelper).1.texture_layer_ = none
      ∧ (OnContainerDestroy sampleHelper).1.background_layer_ = none :=
  ⟨(OnContainerDestroy_clears sampleHelper).2.1 _ rfl,
    by rw [(OnContainerDestroy_clears sampleHelper).1],
    by rw [(OnContainerDestroy_clears sampleHelper).1]⟩

/-- C20, counterexample: on `sampleHelper` (generation (1, 1), acknowledgment
pending, `last_mailbox_valid_` true) the lost release of `sampleMailbox` sends
its one acknowledgment and `last_mailbox_valid_` is still true; so it is after
the lost release of a descriptor of the stale generation (2, 1), which sends
nothing. -/
theorem lost_release_keeps_mailbox_valid :
    sentMessages (MailboxReleased sampleHelper sampleMailbox 5 true).2
        = [Message.BuffersSwappedACK 3 7 1 1 gpu.Mailbox.zero.name 0]
      ∧ (MailboxReleased sampleHelper sampleMailbox 5 true).1.last_mailbox_valid_ = true
      ∧ MailboxReleased sampleHelper { sampleMailbox with route_id := 2 } 5 true
          = (sampleHelper, [])
      ∧ sampleHelper.last_mailbox_valid_ = true := by
  refine ⟨?_, ?_, ?_, ?_⟩ <;> decide

/-- C20, amended: a lost release sends at most one acknowledgment.  It ends
with `last_mailbox_valid_` false when the descriptor is of the current
generation and no acknowledgment is pending; in every other case it leaves
`last_mailbox_valid_` as it was. -/
theorem lost_release_at_most_one_ack (st : BrowserPluginCompositingHelper)
    (m : MailboxSwapInfo) (sync_point : Nat) :
    (sentMessages (MailboxReleased st m sync_point true).2).length ≤ 1
      ∧ (m.route_id = st.last_route_id_ → m.host_id = st.last_host_id_ →
          st.ack_pending_ = false →
          (MailboxReleased st m sync_point true).1.last_mailbox_valid_ = false)
      ∧ (¬ (m.route_id = st.last_route_id_ ∧ m.host_id = st.last_host_id_
            ∧ st.ack_pending_ = false) →
          (MailboxReleased st m sync_point true).1.last_mailbox_valid_
            = st.last_mailbox_valid_) := by
  refine ⟨?_, ?_, ?_⟩
  · simp only [MailboxReleased, MailboxReleasedNotLost, if_true]
    split_ifs <;> simp [sentMessages]
  · intro e1 e2 hp
    simp [MailboxReleased, MailboxReleasedNotLost, empty_info, e1, e2, hp]
  · intro hn
    simp only [MailboxReleased, MailboxReleasedNotLost, if_true]
    split_ifs with c1 c2
    · rfl
    · exfalso
      apply hn
      simp only [empty_info, ne_eq, not_or, not_not] at c1
      exact ⟨c1.2.symm, c1.1.symm, by simpa using c2⟩
    · rfl

/-- Witness of C20, amended: a lost release on `sampleHelper` once its
acknowledgment is out sends nothing and ends with `last_mailbox_valid_` false. -/
theorem lost_release_at_most_one_ack_witness :
    (MailboxReleased { sampleHelper with ack_pending_ := false } sampleMailbox 5
        true).1.last_mailbox_valid_ = false :=
  (lost_release_at_most_one_ack { sampleHelper with ack_pending_ := false } sampleMailbox
    5).2.1 rfl rfl rfl

/-- C18, counterexample: after `EnableCompositing (true)` and two texture swaps
of generation (1, 1), the descriptor of the first swap is bound into a release
callback and an acknowledgment is pending; `OnContainerDestroy` then runs, and
the release of that descriptor afterwards sends a `BuffersSwappedACK` that
carries the token of the first swap. -/
theorem release_after_teardown_acks :
    (run freshHelper [Event.EnableCompositing true, sampleSwapA]).toOption.map
        (fun r => r.1.installedMailbox.map (fun tm => tm.callback))
        = some (some (some sampleDescriptorA))
      ∧ (run freshHelper [Event.EnableCompositing true, sampleSwapA, sampleSwapA2,
          Event.OnContainerDestroy]).toOption.map
            (fun r => (r.1.ack_pending_, r.1.background_layer_.isSome,
              sentMessages (MailboxReleased r.1 sampleDescriptorA 9 false).2))
          = some (true, false, [Message.BuffersSwappedACK 3 7 1 1 sampleName 9]) := by
  constructor <;> decide

/-- A release, lost or not, is the not-lost release of a descriptor with the
ids of the released one. -/
theorem MailboxReleased_eq (st : BrowserPluginCompositingHelper) (m : MailboxSwapInfo)
    (sync_point : Nat) (lost : Bool) :
    MailboxReleased st m sync_point lost
      = MailboxReleasedNotLost st (if lost then empty_info m else m)
          (if lost then 0 else sync_point) := by
  cases lost <;> simp [MailboxReleased]

/-- The calls of a not-lost release: one `Send` when the ids are the current
generation and an acknowledgment is pending, none otherwise. -/
theorem MailboxReleasedNotLost_calls (st : BrowserPluginCompositingHelper)
    (m : MailboxSwapInfo) (sync_point : Nat) :
    (MailboxReleasedNotLost st m sync_point).2
      = if m.route_id = st.last_route_id_ ∧ m.host_id = st.last_host_id_
            ∧ st.ack_pending_ = true
        then [Call.Send (ackFor st m sync_point)] else [] := by
  by_cases h1 : m.route_id = st.last_route_id_
  · by_cases h2 : m.host_id = st.last_host_id_
    · cases hp : st.ack_pending_ <;> simp [MailboxReleasedNotLost, h1, h2, hp]
    · have g2 : ¬ st.last_host_id_ = m.host_id := fun e => h2 e.symm
      simp [MailboxReleasedNotLost, h2, g2]
  · have g1 : ¬ st.last_route_id_ = m.route_id := fun e => h1 e.symm
    simp [MailboxReleasedNotLost, h1, g1]

/-- C18, amended: `OnContainerDestroy` changes neither `ack_pending_` nor the
last route and host id, so a release that follows it sends exactly the messages
it would have sent before it: none when the descriptor is of another generation
or no acknowledgment is pending, and one otherwise. -/
theorem release_after_teardown (st : BrowserPluginCompositingHelper) (m : MailboxSwapInfo)
    (sync_point : Nat) (lost : Bool) :
    (OnContainerDestroy st).1.ack_pending_ = st.ack_pending_
      ∧ (OnContainerDestroy st).1.last_route_id_ = st.last_route_id_
      ∧ (OnContainerDestroy st).1.last_host_id_ = st.last_host_id_
      ∧ (MailboxReleased (OnContainerDestroy st).1 m sync_point lost).2
          = (MailboxReleased st m sync_point lost).2
      ∧ ((m.route_id ≠ st.last_route_id_ ∨ m.host_id ≠ st.last_host_id_
            ∨ st.ack_pending_ = false) →
          (MailboxReleased (OnContainerDestroy st).1 m sync_point lost).2 = [])
      ∧ (m.route_id = st.last_route_id_ → m.host_id = st.last_host_id_ →
          st.ack_pending_ = true →
          (sentMessages
            (MailboxReleased (OnContainerDestroy st).1 m sync_point lost).2).length = 1) := by
  have hsame : (MailboxReleased (OnContainerDestroy st).1 m sync_point lost).2
      = (MailboxReleased st m sync_point lost).2 := by
    rw [MailboxReleased_eq, MailboxReleased_eq, MailboxReleasedNotLost_calls,
      MailboxReleasedNotLost_calls]
    rfl
  refine ⟨rfl, rfl, rfl, hsame, ?_, ?_⟩
  · intro h
    rw [hsame, MailboxReleased_eq, MailboxReleasedNotLost_calls]
    have hn : ¬ (m.route_id = st.last_route_id_ ∧ m.host_id = st.last_host_id_
        ∧ st.ack_pending_ = true) := by
      rintro ⟨e1, e2, e3⟩
      rcases h with h | h | h
      · exact h e1
      · exact h e2
      · rw [e3] at h; exact Bool.noConfusion h
    cases lost <;> simp [empty_info, hn]
  · intro e1 e2 hp
    rw [hsame, MailboxReleased_eq, MailboxReleasedNotLost_calls]
    cases lost <;> simp [empty_info, e1, e2, hp, sentMessages]

/-- Witness of C18, amended: after the teardown of `sampleHelper`, which had an
acknowledgment pending for generation (1, 1), the release of `sampleMailbox`
sends one message; a release of generation (2, 1) sends none. -/
theorem release_after_teardown_witness :
    (sentMessages
        (MailboxReleased (OnContainerDestroy sampleHelper).1 sampleMailbox 5 false).2).length = 1
      ∧ (MailboxReleased (OnContainerDestroy sampleHelper).1
          { sampleMailbox with route_id := 2 } 5 false).2 = [] :=
  ⟨(release_after_teardown sampleHelper sampleMailbox 5 false).2.2.2.2.2 rfl rfl rfl,
    (release_after_teardown sampleHelper { sampleMailbox with route_id := 2 } 5 false).2.2.2.2.1
      (Or.inl (by decide))⟩

/-- C19, counterexample: on `sampleHelper` (root holder, generation (1, 1), a
valid mailbox) a swap of generation (2, 1) with a non-empty token sends one
acknowledgment, not two: the forced release with the all-zero token.  The later
release of the old descriptor `sampleMailbox` sends nothing. -/
theorem generation_change_sends_one_ack :
    (gpu.Mailbox.SetName (115 :: List.replicate 63 0)).IsZero = false
      ∧ (step sampleHelper sampleSwapB).toOption.map (fun r => sentMessages r.2)
          = some [Message.BuffersSwappedACK 3 7 2 1 gpu.Mailbox.zero.name 0]
      ∧ (step sampleHelper sampleSwapB).toOption.map
          (fun r => (MailboxReleased r.1 sampleMailbox 5 false).2) = some [] := by
  refine ⟨?_, ?_, ?_⟩ <;> decide

/-- C19, amended: with a root holder, generation (1, 1) and a valid mailbox, a
swap of generation (2, 1) with a non-empty token returns normally and sends
exactly one acknowledgment, the forced release with the all-zero token, sync
point 0 and the ids (2, 1), before it installs the new token; afterwards the
texture layer holds the new token with the callback bound to the new
descriptor, and a later release of any descriptor of generation (1, 1) sends
nothing and changes nothing. -/
theorem generation_change_forces_release (st : BrowserPluginCompositingHelper)
    (background : SolidColorLayer) (size : gfx.Size) (mailbox_name : List Nat) (s : Float32)
    (hroot : st.background_layer_ = some background)
    (hroute : st.last_route_id_ = 1) (hhost : st.last_host_id_ = 1)
    (hvalid : st.last_mailbox_valid_ = true)
    (htoken : (gpu.Mailbox.SetName mailbox_name).IsZero = false) :
    ∃ st2 pre,
      OnBuffersSwapped st size mailbox_name 2 1 s
          = Except.ok (st2, pre ++
              [Call.Send (Message.BuffersSwappedACK st.host_routing_id_ st.instance_id_ 2 1
                gpu.Mailbox.zero.name 0),
               Call.SetTextureMailbox
                { name := gpu.Mailbox.SetName mailbox_name
                  callback := some (textureSwapInfo size mailbox_name 2 1)
                  sync_point := 0 },
               Call.SetNeedsDisplay])
        ∧ sentMessages pre = []
        ∧ (∀ c ∈ pre, c.isSetTextureMailbox = false)
        ∧ st2.installedMailbox = some
            { name := gpu.Mailbox.SetName mailbox_name
              callback := some (textureSwapInfo size mailbox_name 2 1)
              sync_point := 0 }
        ∧ (∀ (m : MailboxSwapInfo) (sync_point : Nat) (lost : Bool),
            m.route_id = 1 → m.host_id = 1 →
            MailboxReleased st2 m sync_point lost = (st2, [])) := by
  unfold OnBuffersSwapped
  rw [OnBuffersSwappedPrivate_root st background _ 0 s hroot]
  refine ⟨(swapWithRoot st background (textureSwapInfo size mailbox_name 2 1) 0 s).1,
    (match st.texture_layer_ with
      | some _ => []
      | none =>
        [Call.TextureLayer_CreateForMailbox, Call.SetIsDrawable LayerKind.texture true,
         Call.SetContentsOpaque LayerKind.texture true, Call.AddChild LayerKind.texture]) ++
    (if st.buffer_size_ = size then []
      else [Call.SetBounds LayerKind.texture
        (gfx.ToFlooredScaledSize size (Float32.div Float32.one s))]),
    ?_, ?_, ?_, ?_, ?_⟩
  · cases htex : st.texture_layer_ <;> by_cases hsz : st.buffer_size_ = size <;>
      simp [swapWithRoot, textureSwapInfo, htex, hsz, htoken, hroute, hhost, hvalid, ackFor,
        empty_info, MailboxSwapInfo.default]
  · cases htex : st.texture_layer_ <;> by_cases hsz : st.buffer_size_ = size <;>
      simp [htex, hsz, sentMessages]
  · cases htex : st.texture_layer_ <;> by_cases hsz : st.buffer_size_ = size <;>
      simp [htex, hsz, Call.isSetTextureMailbox]
  · simp [swapWithRoot, installedMailbox, textureSwapInfo, htoken]
  · intro m sync_point lost hr hh
    cases lost <;>
      simp [MailboxReleased, MailboxReleasedNotLost, empty_info, swapWithRoot, textureSwapInfo,
        hr, hh]

/-- Witness of C19, amended: the swap of generation (2, 1) on `sampleHelper`. -/
theorem generation_change_forces_release_witness :
    ∃ st2 pre,
      OnBuffersSwapped sampleHelper { width := 50, height := 50 } sampleName 2 1 Float32.one
          = Except.ok (st2, pre ++
              [Call.Send (Message.BuffersSwappedACK 3 7 2 1 gpu.Mailbox.zero.name 0),
               Call.SetTextureMailbox
                { name := gpu.Mailbox.SetName sampleName
                  callback := some
                    (textureSwapInfo { width := 50, height := 50 } sampleName 2 1)
                  sync_point := 0 },
               Call.SetNeedsDisplay])
        ∧ sentMessages pre = [] := by
  obtain ⟨st2, pre, h, h1, _⟩ :=
    generation_change_forces_release sampleHelper _ { width := 50, height := 50 } sampleName
      Float32.one rfl rfl rfl rfl (by decide)
  exact ⟨st2, pre, h, h1⟩

/-- C15: on `enabledHelper`, which has a root holder and no delegated layer,
`OnCompositorFrameSwapped` with the malformed frame creates a delegated layer,
makes it drawable and opaque and attaches it to the root holder (lines
258-264), before the check of lines 266-268 drops the frame.  Afterwards the
condition of the `DCHECK` at line 161 is false. -/
theorem malformed_frame_creates_layer :
    enabledHelper.background_layer_.isSome = true
      ∧ enabledHelper.delegated_layer_ = none
      ∧ sampleMalformedFrame.gl_frame_data = none
      ∧ sampleMalformedFrame.delegated_frame_data = none
      ∧ OnCompositorFrameSwapped enabledHelper sampleMalformedFrame 1 1
          = Except.ok
              ({ enabledHelper with
                  delegated_layer_ := some
                    { bounds := { width := 0, height := 0 }, is_drawable_ := true,
                      contents_opaque_ := true, frame_data := none, unused_resources := [] }
                  background_layer_ := some
                    { masks_to_bounds_ := true, background_color_ := some (255, 255, 255, 255),
                      children := [LayerKind.delegated] } },
                [Call.DelegatedRendererLayer_Create,
                 Call.SetIsDrawable LayerKind.delegated true,
                 Call.SetContentsOpaque LayerKind.delegated true,
                 Call.AddChild LayerKind.delegated])
      ∧ (OnCompositorFrameSwapped enabledHelper sampleMalformedFrame 1 1).toOption.map
          (fun r => OnBuffersSwappedPrivate_DCHECK r.1) = some false :=
  ⟨by decide, by decide, by decide, by decide, rfl, by decide⟩

/-- With a root holder, `OnCompositorFrameSwapped` with a malformed frame
returns normally.  When a delegated layer exists it makes no call and
changes nothing.  When none exists it creates one, makes it drawable and
opaque and attaches it to the root holder, and does nothing else.  Either way
it sends no message, sets no bounds, and leaves the texture layer, the last
route and host id, `ack_pending_`, `last_mailbox_valid_` and `buffer_size_` as
they are. -/
theorem OnCompositorFrameSwapped_no_payload (st : BrowserPluginCompositingHelper)
    (background : SolidColorLayer) (frame : cc.CompositorFrame) (route_id host_id : Int)
    (hroot : st.background_layer_ = some background)
    (hgl : frame.gl_frame_data = none) (hdata : frame.delegated_frame_data = none) :
    (∀ l, st.delegated_layer_ = some l →
        OnCompositorFrameSwapped st frame route_id host_id = Except.ok (st, []))
      ∧ (st.delegated_layer_ = none →
          OnCompositorFrameSwapped st frame route_id host_id
            = Except.ok
                ({ st with
                    delegated_layer_ := some
                      { DelegatedRendererLayer.Create with
                        is_drawable_ := true, contents_opaque_ := true }
                    background_layer_ := some
                      { background with
                        children := background.children ++ [LayerKind.delegated] } },
                  [Call.DelegatedRendererLayer_Create,
                   Call.SetIsDrawable LayerKind.delegated true,
                   Call.SetContentsOpaque LayerKind.delegated true,
                   Call.AddChild LayerKind.delegated]))
      ∧ (∃ st2 calls,
          OnCompositorFrameSwapped st frame route_id host_id = Except.ok (st2, calls)
            ∧ sentMessages calls = []
            ∧ calls.filter Call.isSetBounds = []
            ∧ st2.texture_layer_ = st.texture_layer_
            ∧ st2.last_route_id_ = st.last_route_id_
            ∧ st2.last_host_id_ = st.last_host_id_
            ∧ st2.ack_pending_ = st.ack_pending_
            ∧ st2.last_mailbox_valid_ = st.last_mailbox_valid_
            ∧ st2.buffer_size_ = st.buffer_size_) := by
  have hsome : ∀ l, st.delegated_layer_ = some l →
      OnCompositorFrameSwapped st frame route_id host_id = Except.ok (st, []) := by
    intro l hl
    simp [OnCompositorFrameSwapped, ensureDelegatedLayer, hgl, hdata, hl]
  have hnone : st.delegated_layer_ = none →
      OnCompositorFrameSwapped st frame route_id host_id
        = Except.ok
            ({ st with
                delegated_layer_ := some
                  { DelegatedRendererLayer.Create with
                    is_drawable_ := true, contents_opaque_ := true }
                background_layer_ := some
                  { background with
                    children := background.children ++ [LayerKind.delegated] } },
              [Call.DelegatedRendererLayer_Create,
               Call.SetIsDrawable LayerKind.delegated true,
               Call.SetContentsOpaque LayerKind.delegated true,
               Call.AddChild LayerKind.delegated]) := by
    intro hl
    simp [OnCompositorFrameSwapped, ensureDelegatedLayer, hgl, hdata, hl, hroot]
  refine ⟨hsome, hnone, ?_⟩
  cases hl : st.delegated_layer_ with
  | some l => exact ⟨st, [], hsome l hl, rfl, rfl, rfl, rfl, rfl, rfl, rfl, rfl⟩
  | none => exact ⟨_, _, hnone hl, rfl, rfl, rfl, rfl, rfl, rfl, rfl, rfl⟩

/-- C16, the code at the failing inputs: on a new helper, which has no root
holder, `OnCompositorFrameSwapped` with a delegated frame dereferences the null
`background_layer_` (line 263), and so it does after `OnContainerDestroy`;
with a root holder, a delegated frame with an empty render-pass list takes
`back ()` of the empty list (line 271); and after `OnContainerDestroy` has
cleared `container_`, `EnableCompositing` dereferences it (line 68).  The
texture path at the same states returns normally. -/
theorem delegated_frame_faults :
    run freshHelper [Event.OnCompositorFrameSwapped sampleDelegatedFrame 1 1]
        = Except.error Fault.nullDereference
      ∧ run freshHelper [Event.EnableCompositing true, Event.OnContainerDestroy,
          Event.OnCompositorFrameSwapped sampleDelegatedFrame 1 1]
        = Except.error Fault.nullDereference
      ∧ run freshHelper [Event.EnableCompositing true,
          Event.OnCompositorFrameSwapped sampleEmptyPassFrame 1 1]
        = Except.error Fault.backOfEmptyVector
      ∧ run freshHelper [Event.EnableCompositing true, Event.OnContainerDestroy,
          Event.EnableCompositing true]
        = Except.error Fault.nullDereference
      ∧ run freshHelper [Event.EnableCompositing true, Event.OnContainerDestroy,
          Event.EnableCompositing false]
        = Except.error Fault.nullDereference
      ∧ (run freshHelper [sampleSwapA]).toOption.isSome = true
      ∧ (run freshHelper [Event.EnableCompositing true, Event.OnContainerDestroy,
          sampleSwapA]).toOption.isSome = true :=
  ⟨rfl, rfl, rfl, rfl, rfl, by decide, by decide⟩

/-- C24: with a container, `EnableCompositing (e)` returns normally, and a
second call with the same `e` returns the same helper again, its only call
being `setWebLayer`.  The call leaves an existing root holder, the texture
layer and the delegated layer as they are, leaves the last route and host id,
`ack_pending_`, `last_mailbox_valid_` and `buffer_size_` as they are, and sends
no message. -/
theorem EnableCompositing_idempotent (st : BrowserPluginCompositingHelper)
    (c : WebPluginContainer) (e : Bool) (hc : st.container_ = some c) :
    ∃ st1 calls1,
      EnableCompositing st e = Except.ok (st1, calls1)
        ∧ EnableCompositing st1 e
            = Except.ok (st1, [Call.setWebLayer (e && st1.web_layer_)])
        ∧ (∀ background, st.background_layer_ = some background →
            st1.background_layer_ = some background)
        ∧ st1.texture_layer_ = st.texture_layer_
        ∧ st1.delegated_layer_ = st.delegated_layer_
        ∧ st1.last_route_id_ = st.last_route_id_
        ∧ st1.last_host_id_ = st.last_host_id_
        ∧ st1.ack_pending_ = st.ack_pending_
        ∧ st1.last_mailbox_valid_ = st.last_mailbox_valid_
        ∧ st1.buffer_size_ = st.buffer_size_
        ∧ sentMessages calls1 = [] := by
  refine ⟨(match EnableCompositing st e with
      | Except.ok r => r.1
      | Except.error _ => st),
    (match EnableCompositing st e with
      | Except.ok r => r.2
      | Except.error _ => []), ?_⟩
  cases hbg : st.background_layer_ <;> cases e <;>
    simp [EnableCompositing, hbg, hc, sentMessages, SolidColorLayer.Create]

/-- Witness of C24: `EnableCompositing (true)` on `freshHelper` gives
`enabledHelper`, and so does a second call. -/
theorem EnableCompositing_idempotent_witness :
    ∃ st1 calls1,
      EnableCompositing freshHelper true = Except.ok (st1, calls1)
        ∧ EnableCompositing st1 true
            = Except.ok (st1, [Call.setWebLayer (true && st1.web_layer_)])
        ∧ st1.ack_pending_ = freshHelper.ack_pending_
        ∧ sentMessages calls1 = [] := by
  obtain ⟨st1, calls1, h1, h2, _, _, _, _, _, h3, _, _, h4⟩ :=
    EnableCompositing_idempotent freshHelper _ true rfl
  exact ⟨st1, calls1, h1, h2, h3, h4⟩

/-- C25: `UpdateVisibility (v)` sets the drawable flag of the texture layer and
of the delegated layer, where they exist, to `v` and changes nothing else on
them; it creates no layer, its calls are only `SetIsDrawable`, it sends no
message, and it leaves the last route and host id, `ack_pending_`,
`last_mailbox_valid_`, `buffer_size_`, the root holder and the container as
they are. -/
theorem UpdateVisibility_sets_drawable (st : BrowserPluginCompositingHelper) (v : Bool) :
    (UpdateVisibility st v).1.texture_layer_
        = st.texture_layer_.map (fun l => { l with is_drawable_ := v })
      ∧ (UpdateVisibility st v).1.delegated_layer_
        = st.delegated_layer_.map (fun l => { l with is_drawable_ := v })
      ∧ (UpdateVisibility st v).1.texture_layer_.map (fun l => l.bounds)
        = st.texture_layer_.map (fun l => l.bounds)
      ∧ (UpdateVisibility st v).1.delegated_layer_.map (fun l => l.bounds)
        = st.delegated_layer_.map (fun l => l.bounds)
      ∧ (UpdateVisibility st v).1.background_layer_ = st.background_layer_
      ∧ (UpdateVisibility st v).1.container_ = st.container_
      ∧ (UpdateVisibility st v).1.last_route_id_ = st.last_route_id_
      ∧ (UpdateVisibility st v).1.last_host_id_ = st.last_host_id_
      ∧ (UpdateVisibility st v).1.ack_pending_ = st.ack_pending_
      ∧ (UpdateVisibility st v).1.last_mailbox_valid_ = st.last_mailbox_valid_
      ∧ (UpdateVisibility st v).1.buffer_size_ = st.buffer_size_
      ∧ sentMessages (UpdateVisibility st v).2 = []
      ∧ (∀ call ∈ (UpdateVisibility st v).2,
          call = Call.SetIsDrawable LayerKind.texture v
            ∨ call = Call.SetIsDrawable LayerKind.delegated v) := by
  cases ht : st.texture_layer_ <;> cases hd : st.delegated_layer_ <;>
    simp [UpdateVisibility, ht, hd, sentMessages]

/-- Witness of C25: hiding `sampleHelper`, which has a texture layer. -/
theorem UpdateVisibility_sets_drawable_witness :
    (UpdateVisibility sampleHelper false).1.texture_layer_.map (fun l => l.is_drawable_)
        = some false
      ∧ (UpdateVisibility sampleHelper false).2 = [Call.SetIsDrawable LayerKind.texture false] :=
  ⟨by rw [(UpdateVisibility_sets_drawable sampleHelper false).1]; rfl, rfl⟩

/-- C26: with a root holder and no delegated layer, `OnBuffersSwapped` returns
normally and sends at most one message.  When the incoming ids are not the
last ids or `last_mailbox_valid_` is false (the value after the generation
check is false) it sends exactly one and ends with `ack_pending_` false;
otherwise it sends none and ends with `ack_pending_` true. -/
theorem OnBuffersSwapped_at_most_one_ack (st : BrowserPluginCompositingHelper)
    (background : SolidColorLayer) (size : gfx.Size) (mailbox_name : List Nat)
    (gpu_route_id gpu_host_id : Int) (s : Float32)
    (hroot : st.background_layer_ = some background)
    (hdelegated : st.delegated_layer_ = none) :
    ∃ st2 calls,
      OnBuffersSwapped st size mailbox_name gpu_route_id gpu_host_id s = Except.ok (st2, calls)
        ∧ st2.delegated_layer_ = none
        ∧ (sentMessages calls).length ≤ 1
        ∧ ((adoptGeneration st
              (textureSwapInfo size mailbox_name gpu_route_id gpu_host_id)).last_mailbox_valid_
            = false →
            (sentMessages calls).length = 1 ∧ st2.ack_pending_ = false)
        ∧ ((adoptGeneration st
              (textureSwapInfo size mailbox_name gpu_route_id gpu_host_id)).last_mailbox_valid_
            = true →
            sentMessages calls = [] ∧ st2.ack_pending_ = true)
        ∧ ((adoptGeneration st
              (textureSwapInfo size mailbox_name gpu_route_id gpu_host_id)).last_mailbox_valid_
            = (decide (st.last_route_id_ = gpu_route_id ∧ st.last_host_id_ = gpu_host_id)
                && st.last_mailbox_valid_)) := by
  unfold OnBuffersSwapped
  rw [OnBuffersSwappedPrivate_root st background _ 0 s hroot]
  refine ⟨_, _, rfl, hdelegated, ?_, ?_, ?_, ?_⟩ <;>
  by_cases h1 : st.last_route_id_ = gpu_route_id <;>
  by_cases h2 : st.last_host_id_ = gpu_host_id <;>
  cases hv : st.last_mailbox_valid_ <;>
  cases htex : st.texture_layer_ <;>
  by_cases hsz : st.buffer_size_ = size <;>
  cases hz : (gpu.Mailbox.SetName mailbox_name).IsZero <;>
  simp [swapWithRoot, textureSwapInfo, adoptGeneration, h1, h2, hv, htex, hsz, hz,
    sentMessages]

/-- Witness of C26: a swap of the current generation on `sampleHelper` sends
nothing and leaves an acknowledgment pending. -/
theorem OnBuffersSwapped_at_most_one_ack_witness :
    ∃ st2 calls,
      OnBuffersSwapped sampleHelper { width := 100, height := 100 } sampleName 1 1 Float32.one
          = Except.ok (st2, calls)
        ∧ sentMessages calls = [] ∧ st2.ack_pending_ = true := by
  obtain ⟨st2, calls, h, _, _, _, h2, _⟩ :=
    OnBuffersSwapped_at_most_one_ack sampleHelper _ { width := 100, height := 100 } sampleName
      1 1 Float32.one rfl rfl
  exact ⟨st2, calls, h, h2 rfl⟩

/-- Zero has no binary digits. -/
theorem bitLengthAux_zero (fuel : Nat) : Float32.bitLengthAux fuel 0 = 0 := by
  cases fuel <;> simp [Float32.bitLengthAux]

/-- With enough fuel, a positive `n` has `2^(len - 1) ≤ n < 2^len`. -/
theorem bitLengthAux_spec (fuel : Nat) :
    ∀ n, n ≤ fuel → 0 < n →
      0 < Float32.bitLengthAux fuel n ∧ 2 ^ (Float32.bitLengthAux fuel n - 1) ≤ n
        ∧ n < 2 ^ Float32.bitLengthAux fuel n := by
  induction fuel with
  | zero => intro n h1 h2; omega
  | succ fuel ih =>
    intro n h1 h2
    have hn : n ≠ 0 := by omega
    simp only [Float32.bitLengthAux, hn, if_false]
    by_cases h : n / 2 = 0
    · have : n = 1 := by omega
      subst this
      simp [bitLengthAux_zero]
    · obtain ⟨a1, a2, a3⟩ := ih (n / 2) (by omega) (by omega)
      generalize Float32.bitLengthAux fuel (n / 2) = a at a1 a2 a3
      obtain ⟨b, rfl⟩ : ∃ b, a = b + 1 := ⟨a - 1, by omega⟩
      simp only [Nat.add_sub_cancel] at a2 ⊢
      have e1 : 2 ^ (b + 1) = 2 * 2 ^ b := by rw [pow_succ]; ring
      have e2 : 2 ^ (b + 1 + 1) = 2 * 2 ^ (b + 1) := by rw [pow_succ]; ring
      refine ⟨by omega, ?_, ?_⟩ <;> omega

/-- The number of binary digits of a positive `n`. -/
theorem bitLength_spec (n : Nat) (hn : 0 < n) :
    0 < Float32.bitLength n ∧ 2 ^ (Float32.bitLength n - 1) ≤ n
      ∧ n < 2 ^ Float32.bitLength n :=
  bitLengthAux_spec n n (le_refl n) hn

/-- When `d * 2^k ≤ n < d * 2^(k+1)`, the exponent `Float32.ilog2 n d` is `k`. -/
theorem ilog2_eq (n d k : Nat) (hd : 0 < d) (h1 : d * 2 ^ k ≤ n) (h2 : n < d * 2 ^ (k + 1)) :
    Float32.ilog2 n d = (k : Int) := by
  have hn : 0 < n := lt_of_lt_of_le (Nat.mul_pos hd (Nat.pow_pos (by decide))) h1
  obtain ⟨a1, a2, a3⟩ := bitLength_spec n hn
  obtain ⟨b1, b2, b3⟩ := bitLength_spec d hd
  generalize ha : Float32.bitLength n = a at a1 a2 a3
  generalize hb : Float32.bitLength d = b at b1 b2 b3
  -- a ≤ b + k + 1
  have u1 : a ≤ b + k + 1 := by
    by_contra hc
    have : b + k + 1 ≤ a - 1 := by omega
    have p1 : 2 ^ (b + k + 1) ≤ 2 ^ (a - 1) := Nat.pow_le_pow_right (by decide) this
    have p2 : d * 2 ^ (k + 1) < 2 ^ b * 2 ^ (k + 1) :=
      Nat.mul_lt_mul_of_pos_right b3 (Nat.pow_pos (by decide))
    have p3 : 2 ^ (b + k + 1) = 2 ^ b * 2 ^ (k + 1) := by rw [← pow_add]; ring_nf
    omega
  have u2 : b + k ≤ a := by
    by_contra hc
    have : a ≤ b - 1 + k := by omega
    have p1 : 2 ^ a ≤ 2 ^ (b - 1 + k) := Nat.pow_le_pow_right (by decide) this
    have p2 : 2 ^ (b - 1) * 2 ^ k ≤ d * 2 ^ k := Nat.mul_le_mul_right _ b2
    have p3 : 2 ^ (b - 1 + k) = 2 ^ (b - 1) * 2 ^ k := by rw [pow_add]
    omega
  unfold Float32.ilog2
  simp only [ha, hb]
  have hk : (0 : Int) ≤ (a : Int) - (b : Int) := by omega
  simp only [hk, if_true]
  have ht : ((a : Int) - (b : Int)).toNat = a - b := by omega
  rw [ht]
  rcases Nat.lt_or_ge (b + k) a with h | h
  · have e : a - b = k + 1 := by omega
    rw [e]
    have : ¬ d * 2 ^ (k + 1) ≤ n := by omega
    simp only [this, if_false]
    omega
  · have e : a - b = k := by omega
    rw [e]
    simp only [h1, if_true]
    omega

/-- Rounding is exact on an integer value `w < 2^24`, given as `w * d / d`. -/
theorem round_exact (sign : Bool) (w d L : Nat) (hd : 0 < d) (hL : L ≤ 23)
    (h1 : 2 ^ L ≤ w) (h2 : w < 2 ^ (L + 1)) :
    Float32.round sign (w * d) d = Float32.finite sign (w * 2 ^ (23 - L)) ((L : Int) - 23) := by
  have hw : 0 < w := lt_of_lt_of_le (Nat.pow_pos (by decide)) h1
  have hn : w * d ≠ 0 := Nat.pos_iff_ne_zero.mp (Nat.mul_pos hw hd)
  have hlog : Float32.ilog2 (w * d) d = (L : Int) := by
    apply ilog2_eq _ _ _ hd
    · rw [Nat.mul_comm d]; exact Nat.mul_le_mul_right _ h1
    · rw [Nat.mul_comm d]; exact Nat.mul_lt_mul_of_pos_right h2 hd
  unfold Float32.round
  simp only [hn, if_false, hlog]
  have he : max ((L : Int) - 23) (-149) = (L : Int) - 23 := by omega
  rw [he]
  rcases Nat.lt_or_ge L 23 with hlt | hge
  · have hneg : ¬ (0 : Int) ≤ (L : Int) - 23 := by omega
    have hov : ¬ ((104 : Int) ≤ (L : Int) - 23) := by omega
    have ht : (-((L : Int) - 23)).toNat = 23 - L := by omega
    simp only [hneg, if_false, ht]
    have hq : w * d * 2 ^ (23 - L) / d = w * 2 ^ (23 - L) := by
      rw [Nat.mul_right_comm]; exact Nat.mul_div_cancel _ hd
    have hr : w * d * 2 ^ (23 - L) % d = 0 := by
      rw [Nat.mul_right_comm]; exact Nat.mul_mod_left _ _
    rw [hq, hr]
    have c1 : ¬ (d < 2 * 0 ∨ 2 * 0 = d ∧ w * 2 ^ (23 - L) % 2 = 1) := by omega
    simp only [c1, if_false, hov, false_and]
  · have hL23 : L = 23 := by omega
    subst hL23
    simp only [Nat.cast_ofNat, sub_self, le_refl, if_true, Int.toNat_zero, pow_zero, mul_one,
      Nat.sub_self]
    have hq : w * d / d = w := Nat.mul_div_cancel _ hd
    have hr : w * d % d = 0 := Nat.mul_mod_left _ _
    rw [hq, hr]
    have c1 : ¬ (d < 2 * 0 ∨ 2 * 0 = d ∧ w % 2 = 1) := by omega
    have hov : ¬ ((104 : Int) ≤ 0) := by omega
    simp only [c1, if_false, hov, false_and]

/-- The conversion of an `int` below `2^24` to `float`, times `1.0f / 1.0f`,
floored, is the `int` again. -/
theorem floor_mul_one (w : Nat) (hw : w < 2 ^ 24) :
    (gfx.ToFlooredInt
      (Float32.mul (Float32.ofNat w) (Float32.div Float32.one Float32.one))).toNat = w := by
  have hone : Float32.div Float32.one Float32.one = Float32.finite false 8388608 (-23) := by
    decide
  rw [hone]
  rcases Nat.eq_zero_or_pos w with h0 | hpos
  · subst h0; decide
  · obtain ⟨_, b2, b3⟩ := bitLength_spec w hpos
    obtain ⟨L, hLdef⟩ : ∃ L, Float32.bitLength w = L + 1 := ⟨Float32.bitLength w - 1, by omega⟩
    rw [hLdef] at b2 b3
    simp only [Nat.add_sub_cancel] at b2
    have hL : L ≤ 23 := by
      by_contra hc
      have : 24 ≤ L := by omega
      have := Nat.pow_le_pow_right (show 0 < 2 by decide) this
      omega
    have h1 : Float32.ofNat w = Float32.finite false (w * 2 ^ (23 - L)) ((L : Int) - 23) := by
      have := round_exact false w 1 L (by decide) hL b2 b3
      simpa [Float32.ofNat] using this
    rw [h1]
    have h2 : Float32.mul (Float32.finite false (w * 2 ^ (23 - L)) ((L : Int) - 23))
          (Float32.finite false 8388608 (-23))
        = Float32.finite false (w * 2 ^ (23 - L)) ((L : Int) - 23) := by
      unfold Float32.mul
      have hk : ¬ (0 : Int) ≤ (L : Int) - 23 + -23 := by omega
      have ht : (-((L : Int) - 23 + -23)).toNat = 46 - L := by omega
      simp only [hk, if_false, ht, Bool.xor_false]
      have hd : 2 ^ (46 - L) = 2 ^ (23 - L) * 8388608 := by
        have : 46 - L = (23 - L) + 23 := by omega
        rw [this, pow_add]
        norm_num
      have hn : w * 2 ^ (23 - L) * 8388608 = w * 2 ^ (46 - L) := by
        rw [hd]; ring
      rw [hn]
      exact round_exact false w (2 ^ (46 - L)) L (Nat.pow_pos (by decide)) hL b2 b3
    rw [h2]
    unfold gfx.ToFlooredInt
    simp only [Bool.false_eq_true, if_false]
    rcases Nat.lt_or_ge L 23 with hlt | hge
    · have hneg : ¬ (0 : Int) ≤ (L : Int) - 23 := by omega
      have ht : (-((L : Int) - 23)).toNat = 23 - L := by omega
      simp only [hneg, if_false, ht]
      have hdiv : ((w * 2 ^ (23 - L) : Nat) : Int) / 2 ^ (23 - L) = (w : Int) := by
        have : ((w * 2 ^ (23 - L) : Nat) : Int) = (w : Int) * 2 ^ (23 - L) := by push_cast; ring
        rw [this]
        exact Int.mul_ediv_cancel _ (by positivity)
      rw [hdiv]
      have c1 : ¬ ((2 : Int) ^ 31 ≤ (w : Int)) := by
        have : (w : Int) < 2 ^ 24 := by exact_mod_cast hw
        omega
      have c2 : ¬ ((w : Int) ≤ -(2 ^ 31)) := by omega
      simp only [c1, c2, if_false, Int.toNat_ofNat]
    · have hL23 : L = 23 := by omega
      subst hL23
      simp only [Nat.cast_ofNat, sub_self, le_refl, if_true, Int.toNat_zero, pow_zero,
        mul_one, Nat.sub_self]
      have c1 : ¬ ((2 : Int) ^ 31 ≤ (w : Int)) := by
        have : (w : Int) < 2 ^ 24 := by exact_mod_cast hw
        omega
      have c2 : ¬ ((w : Int) ≤ -(2 ^ 31)) := by omega
      simp only [c1, c2, if_false, Int.toNat_ofNat]

/-- At scale 1 the bounds of a buffer below `2^24` pixels in each dimension are
its pixel size. -/
theorem scaledBounds_one (size : gfx.Size) (hw : size.width < 2 ^ 24)
    (hh : size.height < 2 ^ 24) : scaledBounds size Float32.one = size := by
  unfold scaledBounds gfx.ToFlooredScaledSize
  rw [floor_mul_one size.width hw, floor_mul_one size.height hh]

/-- C21, counterexample: after `EnableCompositing (true)` and the first texture
swap A (route 1, host 1, 100x100, scale 1, token `sampleName`) on a new helper,
the bounds are 100x100 but `ack_pending_` is false, the swap having sent the
forced release with the all-zero token; the release of A's descriptor then
sends nothing.  And at scale 1 a width of `2^24 + 1` gets the bound `2^24`. -/
theorem first_swap_is_acked_at_once :
    (run freshHelper [Event.EnableCompositing true, sampleSwapA]).toOption.map
        (fun r => (r.1.texture_layer_.map (fun l => l.bounds), r.1.ack_pending_,
          sentMessages r.2, (MailboxReleased r.1 sampleDescriptorA 9 false).2))
        = some (some { width := 100, height := 100 }, false,
            [Message.BuffersSwappedACK 3 7 1 1 gpu.Mailbox.zero.name 0], [])
      ∧ scaledBounds { width := 16777217, height := 1 } Float32.one
        = { width := 16777216, height := 1 } := by
  constructor <;> decide

/-- C21, amended: on a new helper with compositing enabled, the first texture
swap of a non-empty token at scale 1, with any ids and any size below `2^24`
in each dimension, returns normally; the bounds of the texture layer are the
pixel size, the swap sends one message, the forced release with the all-zero
token, and `ack_pending_` is false afterwards.  The following release, not
lost, of the swap's descriptor sends nothing, sets `last_mailbox_valid_` to
false and leaves `ack_pending_` false. -/
theorem first_swap_then_release (container : WebPluginContainer)
    (instance_id host_routing_id : Int) (size : gfx.Size) (mailbox_name : List Nat)
    (gpu_route_id gpu_host_id : Int)
    (hw : size.width < 2 ^ 24) (hh : size.height < 2 ^ 24)
    (htoken : (gpu.Mailbox.SetName mailbox_name).IsZero = false) :
    ∃ st1 calls1 st2 calls2,
      EnableCompositing (new (some container) instance_id host_routing_id) true
          = Except.ok (st1, calls1)
        ∧ OnBuffersSwapped st1 size mailbox_name gpu_route_id gpu_host_id Float32.one
          = Except.ok (st2, calls2)
        ∧ st2.texture_layer_.map (fun l => l.bounds) = some size
        ∧ sentMessages calls2
          = [Message.BuffersSwappedACK host_routing_id instance_id gpu_route_id gpu_host_id
              gpu.Mailbox.zero.name 0]
        ∧ st2.ack_pending_ = false
        ∧ st2.installedMailbox = some
            { name := gpu.Mailbox.SetName mailbox_name
              callback := some (textureSwapInfo size mailbox_name gpu_route_id gpu_host_id)
              sync_point := 0 }
        ∧ (∀ sync_point,
            MailboxReleased st2 (textureSwapInfo size mailbox_name gpu_route_id gpu_host_id)
                sync_point false
              = ({ st2 with last_mailbox_valid_ := false }, [])) := by
  have hscaled := scaledBounds_one size hw hh
  unfold scaledBounds at hscaled
  refine ⟨_, _, _, _, rfl,
    OnBuffersSwappedPrivate_root _
      { masks_to_bounds_ := true, background_color_ := some (255, 255, 255, 255),
        children := [] } _ 0 Float32.one rfl, ?_, ?_, ?_, ?_, ?_⟩
  · by_cases hsz : ({ width := 0, height := 0 } : gfx.Size) = size
    · subst hsz
      simp [swapWithRoot, new, textureSwapInfo, htoken, TextureLayer.CreateForMailbox]
    · simp [swapWithRoot, new, textureSwapInfo, htoken, hsz, hscaled]
  · by_cases hsz : ({ width := 0, height := 0 } : gfx.Size) = size
    · subst hsz
      simp [swapWithRoot, new, textureSwapInfo, htoken, sentMessages, ackFor, empty_info,
        MailboxSwapInfo.default]
    · simp [swapWithRoot, new, textureSwapInfo, htoken, hsz, sentMessages, ackFor, empty_info,
        MailboxSwapInfo.default]
  · simp [swapWithRoot, new]
  · simp [swapWithRoot, new, installedMailbox, textureSwapInfo, htoken]
  · intro sync_point
    simp [MailboxReleased, MailboxReleasedNotLost, swapWithRoot, new, textureSwapInfo]

/-- Witness of C21, amended: swap A of the scenario on `freshHelper`. -/
theorem first_swap_then_release_witness :
    ∃ st1 calls1 st2 calls2,
      EnableCompositing freshHelper true = Except.ok (st1, calls1)
        ∧ OnBuffersSwapped st1 { width := 100, height := 100 } sampleName 1 1 Float32.one
          = Except.ok (st2, calls2)
        ∧ st2.texture_layer_.map (fun l => l.bounds) = some { width := 100, height := 100 }
        ∧ sentMessages calls2 = [Message.BuffersSwappedACK 3 7 1 1 gpu.Mailbox.zero.name 0]
        ∧ st2.ack_pending_ = false := by
  obtain ⟨st1, calls1, st2, calls2, h1, h2, h3, h4, h5, _⟩ :=
    first_swap_then_release { web_layer := false } 7 3 { width := 100, height := 100 }
      sampleName 1 1 (by decide) (by decide) (by decide)
  exact ⟨st1, calls1, st2, calls2, h1, h2, h3, h4, h5⟩

/-- The messages among the calls of two call lists in a row. -/
theorem sentMessages_append (a b : List Call) :
    sentMessages (a ++ b) = sentMessages a ++ sentMessages b := by
  induction a with
  | nil => rfl
  | cons c t ih => cases c <;> simp [sentMessages, ih]

/-- One `OnBuffersSwapped` or `MailboxReleased` call returns normally and sends
at most one message; after a message `ack_pending_` is false; a release with
`ack_pending_` false sends nothing; a release that sends nothing leaves
`ack_pending_` as it is; a swap either sends one message or leaves
`ack_pending_` true, not both. -/
theorem step_swap_or_release (st : BrowserPluginCompositingHelper) (e : Event)
    (hkind : e.isTextureSwap = true ∨ e.isRelease = true) :
    ∃ st2 calls,
      step st e = Except.ok (st2, calls)
        ∧ (sentMessages calls).length ≤ 1
        ∧ (0 < (sentMessages calls).length → st2.ack_pending_ = false)
        ∧ (e.isRelease = true → st.ack_pending_ = false →
            (sentMessages calls).length = 0 ∧ st2.ack_pending_ = false)
        ∧ (e.isRelease = true → (sentMessages calls).length = 0 →
            st2.ack_pending_ = st.ack_pending_)
        ∧ (e.isTextureSwap = true →
            (sentMessages calls).length + (if st2.ack_pending_ then 1 else 0) = 1) := by
  cases e with
  | OnBuffersSwapped size mailbox_name gpu_route_id gpu_host_id s =>
    cases hbg : st.background_layer_ with
    | none =>
      refine ⟨_, _, OnBuffersSwappedPrivate_no_root st _ 0 s hbg, ?_⟩
      simp [sentMessages, Event.isRelease, Event.isTextureSwap]
    | some background =>
      refine ⟨_, _, OnBuffersSwappedPrivate_root st background _ 0 s hbg, ?_⟩
      by_cases h1 : st.last_route_id_ = gpu_route_id <;>
      by_cases h2 : st.last_host_id_ = gpu_host_id <;>
      cases hv : st.last_mailbox_valid_ <;>
      cases htex : st.texture_layer_ <;>
      by_cases hsz : st.buffer_size_ = size <;>
      cases hz : (gpu.Mailbox.SetName mailbox_name).IsZero <;>
      simp [swapWithRoot, textureSwapInfo, h1, h2, hv, htex, hsz, hz,
        sentMessages, Event.isRelease, Event.isTextureSwap, sentMessages_append]
  | MailboxReleased mailbox sync_point lost =>
    refine ⟨(MailboxReleased st mailbox sync_point lost).1,
      (MailboxReleased st mailbox sync_point lost).2, rfl, ?_⟩
    rw [MailboxReleased_eq]
    generalize (if lost = true then empty_info mailbox else mailbox) = m
    generalize (if lost = true then 0 else sync_point) = sp
    unfold MailboxReleasedNotLost
    cases hp : st.ack_pending_ <;> split_ifs <;>
      simp_all [sentMessages, Event.isRelease, Event.isTextureSwap]
  | EnableCompositing _ => simp [Event.isRelease, Event.isTextureSwap] at hkind
  | OnCompositorFrameSwapped _ _ _ => simp [Event.isRelease, Event.isTextureSwap] at hkind
  | DidCommitCompositorFrame => simp [Event.isRelease, Event.isTextureSwap] at hkind
  | UpdateVisibility _ => simp [Event.isRelease, Event.isTextureSwap] at hkind
  | OnContainerDestroy => simp [Event.isRelease, Event.isTextureSwap] at hkind

/-- The log of a sequence whose first call returns normally. -/
theorem ackLog_cons_ok (st st2 : BrowserPluginCompositingHelper) (e : Event)
    (rest : List Event) (calls : List Call) (h : step st e = Except.ok (st2, calls)) :
    ackLog st (e :: rest) = (e, (sentMessages calls).length) :: ackLog st2 rest := by
  simp [ackLog, h]

/-- A sequence of `OnBuffersSwapped` and `MailboxReleased` calls runs to its
end: the log has every event. -/
theorem ackLog_complete (events : List Event) :
    ∀ st : BrowserPluginCompositingHelper,
      (∀ e ∈ events, e.isTextureSwap = true ∨ e.isRelease = true) →
      (ackLog st events).map Prod.fst = events := by
  induction events with
  | nil => intro st _; rfl
  | cons e rest ih =>
    intro st hkind
    obtain ⟨st2, calls, hstep, _⟩ := step_swap_or_release st e (hkind e (by simp))
    rw [ackLog_cons_ok st st2 e rest calls hstep]
    simp [ih st2 (fun e2 he2 => hkind e2 (by simp [he2]))]

/-- A sequence of `OnBuffersSwapped` and `MailboxReleased` calls returns
normally, and the number of messages among its calls is the sum of the log. -/
theorem run_ackLog (events : List Event) :
    ∀ st : BrowserPluginCompositingHelper,
      (∀ e ∈ events, e.isTextureSwap = true ∨ e.isRelease = true) →
      ∃ r, run st events = Except.ok r
        ∧ (sentMessages r.2).length = ((ackLog st events).map Prod.snd).sum := by
  induction events with
  | nil => intro st _; exact ⟨(st, []), rfl, rfl⟩
  | cons e rest ih =>
    intro st hkind
    obtain ⟨st2, calls, hstep, _⟩ := step_swap_or_release st e (hkind e (by simp))
    obtain ⟨r2, hrun, hsum⟩ := ih st2 (fun e2 he2 => hkind e2 (by simp [he2]))
    refine ⟨(r2.1, calls ++ r2.2), ?_, ?_⟩
    · simp [run, hstep, hrun]
    · rw [ackLog_cons_ok st st2 e rest calls hstep]
      simp [sentMessages_append, hsum]

/-- The acknowledgments of a prefix are at most its swaps, plus one when a
descriptor was carried before the sequence and an acknowledgment is pending. -/
theorem ackLog_budget (events : List Event) :
    ∀ (st : BrowserPluginCompositingHelper) (carried : List MailboxSwapInfo),
      (∀ e ∈ events, e.isTextureSwap = true ∨ e.isRelease = true) →
      releasesFollowSwaps carried events = true →
      ∀ k, (((ackLog st events).take k).map Prod.snd).sum
        ≤ ((events.take k).filter Event.isTextureSwap).length
          + (if carried.isEmpty then 0 else if st.ack_pending_ then 1 else 0) := by
  induction events with
  | nil => intro st carried _ _ k; simp [ackLog]
  | cons e rest ih =>
    intro st carried hkind hrel k
    cases k with
    | zero => simp
    | succ k =>
      obtain ⟨st2, calls, hstep, hle, hclear, hquiet, hkeep, hswap⟩ :=
        step_swap_or_release st e (hkind e (by simp))
      have hkind2 : ∀ e2 ∈ rest, e2.isTextureSwap = true ∨ e2.isRelease = true :=
        fun e2 he2 => hkind e2 (by simp [he2])
      rw [ackLog_cons_ok st st2 e rest calls hstep]
      cases e with
      | OnBuffersSwapped size mailbox_name gpu_route_id gpu_host_id s =>
        have h2 := ih st2 (textureSwapInfo size mailbox_name gpu_route_id gpu_host_id :: carried)
          hkind2 (by simpa [releasesFollowSwaps] using hrel) k
        have h3 := hswap rfl
        simp only [List.take_succ_cons, List.map_cons, List.sum_cons, List.filter_cons,
          Event.isTextureSwap, if_true, List.length_cons, List.isEmpty_cons] at h2 ⊢
        simp only [Bool.false_eq_true, if_false] at h2
        omega
      | MailboxReleased mailbox sync_point lost =>
        simp only [releasesFollowSwaps, Bool.and_eq_true, decide_eq_true_eq] at hrel
        have hne : carried.isEmpty = false := by
          cases carried with
          | nil => simp at hrel
          | cons _ _ => rfl
        have h2 := ih st2 carried hkind2 hrel.2 k
        simp only [List.take_succ_cons, List.map_cons, List.sum_cons, List.filter_cons,
          Event.isTextureSwap, List.length_cons, hne] at h2 ⊢
        simp only [Bool.false_eq_true, if_false] at h2 ⊢
        by_cases hlen : (sentMessages calls).length = 0
        · rw [hkeep rfl hlen] at h2
          omega
        · have hpos : 0 < (sentMessages calls).length := Nat.pos_of_ne_zero hlen
          have hst2 := hclear hpos
          have hst : st.ack_pending_ = true := by
            cases hp : st.ack_pending_ with
            | true => rfl
            | false => exact absurd (hquiet rfl hp).1 hlen
          simp only [hst2, hst, Bool.false_eq_true, if_false, if_true] at h2 ⊢
          omega
      | EnableCompositing _ => simp [Event.isRelease, Event.isTextureSwap] at hkind
      | OnCompositorFrameSwapped _ _ _ => simp [Event.isRelease, Event.isTextureSwap] at hkind
      | DidCommitCompositorFrame => simp [Event.isRelease, Event.isTextureSwap] at hkind
      | UpdateVisibility _ => simp [Event.isRelease, Event.isTextureSwap] at hkind
      | OnContainerDestroy => simp [Event.isRelease, Event.isTextureSwap] at hkind

/-- With `ack_pending_` false, the next event that sends an acknowledgment is a
swap or comes after one. -/
theorem ackLog_quiet (events : List Event) :
    ∀ st : BrowserPluginCompositingHelper, st.ack_pending_ = false →
      (∀ e ∈ events, e.isTextureSwap = true ∨ e.isRelease = true) →
      ∀ (mid : List (Event × Nat)) (y : Event × Nat) (post : List (Event × Nat)),
        ackLog st events = mid ++ y :: post → 0 < y.2 →
        ∃ z ∈ mid ++ [y], z.1.isTextureSwap = true := by
  induction events with
  | nil =>
    intro st _ _ mid y post h _
    simp [ackLog] at h
  | cons e rest ih =>
    intro st hp hkind mid y post h hy
    obtain ⟨st2, calls, hstep, hle, hclear, hquiet, hkeep, hswap⟩ :=
      step_swap_or_release st e (hkind e (by simp))
    rw [ackLog_cons_ok st st2 e rest calls hstep] at h
    by_cases hsw : e.isTextureSwap = true
    · cases mid with
      | nil =>
        simp only [List.nil_append, List.cons.injEq] at h
        exact ⟨y, by simp, by rw [← h.1]; exact hsw⟩
      | cons m mid2 =>
        simp only [List.cons_append, List.cons.injEq] at h
        exact ⟨m, by simp, by rw [← h.1]; exact hsw⟩
    · have hrel : e.isRelease = true := by
        cases hkind e (by simp) with
        | inl h1 => exact absurd h1 hsw
        | inr h2 => exact h2
      have h0 := hquiet hrel hp
      cases mid with
      | nil =>
        simp only [List.nil_append, List.cons.injEq] at h
        rw [← h.1] at hy
        simp only at hy
        omega
      | cons m mid2 =>
        simp only [List.cons_append, List.cons.injEq] at h
        obtain ⟨z, hz, hz2⟩ := ih st2 h0.2 (fun e2 he2 => hkind e2 (by simp [he2]))
          mid2 y post h.2 hy
        exact ⟨z, by simp at hz ⊢; tauto, hz2⟩

/-- After an event that sends an acknowledgment, the rest of the log is the
log of the remaining events from a helper with `ack_pending_` false. -/
theorem ackLog_after_ack (events : List Event) :
    ∀ st : BrowserPluginCompositingHelper,
      (∀ e ∈ events, e.isTextureSwap = true ∨ e.isRelease = true) →
      ∀ (pre : List (Event × Nat)) (x : Event × Nat) (rest : List (Event × Nat)),
        ackLog st events = pre ++ x :: rest → 0 < x.2 →
        ∃ (st2 : BrowserPluginCompositingHelper) (events2 : List Event),
          st2.ack_pending_ = false
            ∧ (∀ e ∈ events2, e.isTextureSwap = true ∨ e.isRelease = true)
            ∧ rest = ackLog st2 events2 := by
  induction events with
  | nil =>
    intro st _ pre x rest h _
    simp [ackLog] at h
  | cons e tail ih =>
    intro st hkind pre x rest h hx
    obtain ⟨st2, calls, hstep, hle, hclear, hquiet, hkeep, hswap⟩ :=
      step_swap_or_release st e (hkind e (by simp))
    have hkind2 : ∀ e2 ∈ tail, e2.isTextureSwap = true ∨ e2.isRelease = true :=
      fun e2 he2 => hkind e2 (by simp [he2])
    rw [ackLog_cons_ok st st2 e tail calls hstep] at h
    cases pre with
    | nil =>
      simp only [List.nil_append, List.cons.injEq] at h
      rw [← h.1] at hx
      exact ⟨st2, tail, hclear hx, hkind2, h.2.symm⟩
    | cons p pre2 =>
      simp only [List.cons_append, List.cons.injEq] at h
      exact ih st2 hkind2 pre2 x rest h.2 hx

/-- C22: a sequence of `OnBuffersSwapped` and `MailboxReleased` calls in which
every released descriptor is one that an earlier swap of the sequence carried,
applied to any helper (a newly constructed one in particular), returns
normally; at every prefix the number of acknowledgments sent is at most the
number of swaps, and of two events that each send an acknowledgment the later
one is a swap or has a swap between it and the earlier one.  `ackLog` pairs
each event with the number of acknowledgments its call sent. -/
theorem acks_at_most_swaps (st : BrowserPluginCompositingHelper) (events : List Event)
    (hkind : ∀ e ∈ events, e.isTextureSwap = true ∨ e.isRelease = true)
    (hreleased : releasesFollowSwaps [] events = true) :
    (∃ r, run st events = Except.ok r
        ∧ (sentMessages r.2).length = ((ackLog st events).map Prod.snd).sum)
      ∧ (ackLog st events).map Prod.fst = events
      ∧ (∀ k, (((ackLog st events).take k).map Prod.snd).sum
          ≤ ((events.take k).filter Event.isTextureSwap).length)
      ∧ (∀ (pre : List (Event × Nat)) (x : Event × Nat) (mid : List (Event × Nat))
            (y : Event × Nat) (post : List (Event × Nat)),
          ackLog st events = pre ++ x :: (mid ++ y :: post) → 0 < x.2 → 0 < y.2 →
          ∃ z ∈ mid ++ [y], z.1.isTextureSwap = true) := by
  refine ⟨run_ackLog events st hkind, ackLog_complete events st hkind, ?_, ?_⟩
  · intro k
    simpa using ackLog_budget events st [] hkind hreleased k
  · intro pre x mid y post h hx hy
    obtain ⟨st2, events2, hp, hkind2, hrest⟩ := ackLog_after_ack events st hkind pre x _ h hx
    exact ackLog_quiet events2 st2 hp hkind2 mid y post hrest.symm hy

/-- Witness of C22: `sampleSwapsAndReleases` on `enabledHelper` sends three
acknowledgments: at the first swap, at the release after the second swap and
at the third swap. -/
theorem acks_at_most_swaps_witness :
    (ackLog enabledHelper sampleSwapsAndReleases).map Prod.snd = [1, 0, 1, 0, 1, 0]
      ∧ (∀ k, (((ackLog enabledHelper sampleSwapsAndReleases).take k).map Prod.snd).sum
          ≤ ((sampleSwapsAndReleases.take k).filter Event.isTextureSwap).length) :=
  ⟨by decide,
    (acks_at_most_swaps enabledHelper sampleSwapsAndReleases (by decide) (by decide)).2.2.1⟩

/-- One event: a call that sends a message ends with `ack_pending_` false, and
`ack_pending_` is true after a call only if the call is a swap that carries a
buffer or `ack_pending_` was true before it. -/
theorem step_ack_pending (st st2 : BrowserPluginCompositingHelper) (e : Event)
    (calls : List Call) (h : step st e = Except.ok (st2, calls)) :
    (0 < (sentMessages calls).length → st2.ack_pending_ = false)
      ∧ (st2.ack_pending_ = true → e.carriesBuffer = true ∨ st.ack_pending_ = true) := by
  cases e with
  | OnBuffersSwapped size mailbox_name gpu_route_id gpu_host_id s =>
    obtain ⟨st3, calls3, h3, _, hclear, _⟩ :=
      step_swap_or_release st
        (Event.OnBuffersSwapped size mailbox_name gpu_route_id gpu_host_id s) (Or.inl rfl)
    rw [h3] at h
    obtain ⟨rfl, rfl⟩ := ok_outcome_inj h
    exact ⟨hclear, fun _ => Or.inl rfl⟩
  | MailboxReleased mailbox sync_point lost =>
    obtain ⟨st3, calls3, h3, _, hclear, hquiet, _⟩ :=
      step_swap_or_release st (Event.MailboxReleased mailbox sync_point lost) (Or.inr rfl)
    rw [h3] at h
    obtain ⟨rfl, rfl⟩ := ok_outcome_inj h
    refine ⟨hclear, fun h2 => Or.inr ?_⟩
    cases hp : st.ack_pending_ with
    | true => rfl
    | false =>
      have := (hquiet rfl hp).2
      simp_all
  | EnableCompositing enable =>
    refine ⟨?_, fun h2 => Or.inr ?_⟩ <;>
    · cases hc : st.container_ <;> cases hbg : st.background_layer_ <;> cases enable <;>
        simp [step, EnableCompositing, hc, hbg] at h <;>
        obtain ⟨rfl, rfl⟩ := h <;> simp_all [sentMessages]
  | OnCompositorFrameSwapped frame route_id host_id =>
    cases hgl : frame.gl_frame_data with
    | some gl =>
      refine ⟨?_, fun _ => Or.inl (by simp [Event.carriesBuffer, hgl])⟩
      cases hbg : st.background_layer_ with
      | none =>
        simp only [step, OnCompositorFrameSwapped, hgl] at h
        rw [OnBuffersSwappedPrivate_no_root st _ _ _ hbg] at h
        obtain ⟨rfl, rfl⟩ := ok_outcome_inj h
        simp
      | some background =>
        simp only [step, OnCompositorFrameSwapped, hgl] at h
        rw [OnBuffersSwappedPrivate_root st background _ _ _ hbg] at h
        obtain ⟨rfl, rfl⟩ := ok_outcome_inj h
        by_cases h1 : st.last_route_id_ = route_id <;>
        by_cases h2 : st.last_host_id_ = host_id <;>
        cases hv : st.last_mailbox_valid_ <;>
        cases htex : st.texture_layer_ <;>
        by_cases hsz : st.buffer_size_ = gl.size <;>
        cases hz : gl.mailbox.IsZero <;>
        simp [swapWithRoot, frameSwapInfo, h1, h2, hv, htex, hsz, hz,
          sentMessages, sentMessages_append]
    | none =>
      cases hdata : frame.delegated_frame_data with
      | none =>
        cases hdel : st.delegated_layer_ <;> cases hbg : st.background_layer_ <;>
          simp [step, OnCompositorFrameSwapped, ensureDelegatedLayer, hgl, hdel, hbg,
            hdata] at h <;>
          obtain ⟨rfl, rfl⟩ := h <;>
          exact ⟨by simp [sentMessages], fun h2 => Or.inr h2⟩
      | some data =>
        refine ⟨?_, fun _ => Or.inl (by simp [Event.carriesBuffer, hdata])⟩
        cases hpass : data.render_pass_list.getLast? with
        | none =>
          cases hdel : st.delegated_layer_ <;> cases hbg : st.background_layer_ <;>
            simp [step, OnCompositorFrameSwapped, ensureDelegatedLayer, hgl, hdel, hbg,
              hdata, hpass] at h
        | some pass =>
          cases hdel : st.delegated_layer_ <;> cases hbg : st.background_layer_ <;>
            by_cases hsz : st.buffer_size_ = pass.output_rect.size <;>
            simp [step, OnCompositorFrameSwapped, ensureDelegatedLayer,
              CheckSizeAndAdjustLayerBounds, hgl, hdel, hbg, hdata, hpass, hsz] at h <;>
            obtain ⟨rfl, rfl⟩ := h <;> simp [sentMessages]
  | DidCommitCompositorFrame =>
    simp only [step, DidCommitCompositorFrame] at h
    cases hdel : st.delegated_layer_ <;> cases hp : st.ack_pending_ <;>
      simp [hdel, hp] at h <;> obtain ⟨rfl, rfl⟩ := h <;> simp_all [sentMessages]
  | UpdateVisibility visible =>
    simp only [step, UpdateVisibility] at h
    obtain ⟨rfl, rfl⟩ := ok_outcome_inj h
    refine ⟨?_, fun h2 => Or.inr h2⟩
    cases ht : st.texture_layer_ <;> cases hd : st.delegated_layer_ <;>
      simp [sentMessages]
  | OnContainerDestroy =>
    simp only [step, OnContainerDestroy] at h
    obtain ⟨rfl, rfl⟩ := ok_outcome_inj h
    refine ⟨?_, fun h2 => Or.inr h2⟩
    cases hc : st.container_ <;> simp [sentMessages]

/-- A run that returns normally has every event in its log. -/
theorem ackLog_of_run (events : List Event) :
    ∀ (st0 : BrowserPluginCompositingHelper) (r : Outcome),
      run st0 events = Except.ok r → (ackLog st0 events).map Prod.fst = events := by
  induction events with
  | nil => intro st0 r _; rfl
  | cons e rest ih =>
    intro st0 r h
    cases hstep : step st0 e with
    | error f => simp [run, hstep] at h
    | ok r1 =>
      cases hrun : run r1.1 rest with
      | error f => simp [run, hstep, hrun] at h
      | ok r2 =>
        rw [ackLog_cons_ok st0 r1.1 e rest r1.2 hstep]
        simp [ih r1.1 r2 hrun]

/-- When `ack_pending_` is true after a run, either a swap of the run has
carried a buffer and no event from that swap on has sent an acknowledgment, or
`ack_pending_` was true before the run, no event of the run has sent an
acknowledgment and none has carried a buffer. -/
theorem ack_pending_origin (events : List Event) :
    ∀ (st0 st : BrowserPluginCompositingHelper) (calls : List Call),
      run st0 events = Except.ok (st, calls) → st.ack_pending_ = true →
      (∃ pre e post, events = pre ++ e :: post ∧ e.carriesBuffer = true
          ∧ ∀ x ∈ (ackLog st0 events).drop pre.length, x.2 = 0)
        ∨ (st0.ack_pending_ = true
          ∧ ∀ x ∈ ackLog st0 events, x.2 = 0 ∧ x.1.carriesBuffer = false) := by
  induction events with
  | nil =>
    intro st0 st calls h hp
    simp only [run] at h
    obtain ⟨rfl, rfl⟩ := ok_outcome_inj h
    exact Or.inr ⟨hp, by simp [ackLog]⟩
  | cons e rest ih =>
    intro st0 st calls h hp
    cases hstep : step st0 e with
    | error f => simp [run, hstep] at h
    | ok r1 =>
      cases hrun : run r1.1 rest with
      | error f => simp [run, hstep, hrun] at h
      | ok r2 =>
        simp only [run, hstep, hrun] at h
        obtain ⟨rfl, rfl⟩ := ok_outcome_inj h
        have hlog := ackLog_cons_ok st0 r1.1 e rest r1.2 hstep
        obtain ⟨hclear, horigin⟩ := step_ack_pending st0 r1.1 e r1.2 hstep
        rcases ih r1.1 r2.1 r2.2 hrun hp with ⟨pre, e2, post, hsplit, hswap, hzero⟩ | ⟨hp1, hzero⟩
        · refine Or.inl ⟨e :: pre, e2, post, by simp [hsplit], hswap, ?_⟩
          rw [hlog]
          simpa using hzero
        · have hnone : (sentMessages r1.2).length = 0 := by
            by_contra hne
            have := hclear (Nat.pos_of_ne_zero hne)
            simp [hp1] at this
          cases hcarry : e.carriesBuffer with
          | true =>
            refine Or.inl ⟨[], e, rest, rfl, hcarry, ?_⟩
            rw [hlog]
            intro x hx
            simp only [List.length_nil, List.drop_zero, List.mem_cons] at hx
            rcases hx with rfl | hx
            · exact hnone
            · exact (hzero x hx).1
          | false =>
            have hp0 : st0.ack_pending_ = true := by
              rcases horigin hp1 with hswap | hp0
              · simp [hcarry] at hswap
              · exact hp0
            refine Or.inr ⟨hp0, ?_⟩
            rw [hlog]
            intro x hx
            simp only [List.mem_cons] at hx
            rcases hx with rfl | hx
            · exact ⟨hnone, hcarry⟩
            · exact hzero x hx

/-- C23, counterexample: `freshHelper`, a newly constructed helper that has
received no buffer, has `ack_pending_` true, and so has the helper after
`EnableCompositing (true)`, which has sent nothing. -/
theorem new_helper_ack_pending :
    Reachable freshHelper
      ∧ freshHelper.ack_pending_ = true
      ∧ freshHelper.texture_layer_ = none
      ∧ freshHelper.delegated_layer_ = none
      ∧ (run freshHelper [Event.EnableCompositing true]).toOption.map
          (fun r => (r.1.ack_pending_, sentMessages r.2)) = some (true, []) :=
  ⟨Reachable.fresh _ _ _, rfl, rfl, rfl, by decide⟩

/-- C23, amended: a newly constructed helper has `ack_pending_` true.  After a
run of events on it that returns normally, every event is in the log, and
`ack_pending_` is true only if a swap of the run has carried a buffer and no
event from that swap on has sent an acknowledgment, or no event of the run has
carried a buffer or sent an acknowledgment, so that the value is still the
one of the constructor. -/
theorem ack_pending_since_swap_or_construction (container : Option WebPluginContainer)
    (instance_id host_routing_id : Int) :
    (new container instance_id host_routing_id).ack_pending_ = true
      ∧ (∀ (events : List Event) (st : BrowserPluginCompositingHelper) (calls : List Call),
          run (new container instance_id host_routing_id) events = Except.ok (st, calls) →
          (ackLog (new container instance_id host_routing_id) events).map Prod.fst = events
            ∧ (st.ack_pending_ = true →
              (∃ pre e post, events = pre ++ e :: post ∧ e.carriesBuffer = true
                  ∧ ∀ x ∈ (ackLog (new container instance_id host_routing_id) events).drop
                      pre.length, x.2 = 0)
                ∨ (∀ x ∈ ackLog (new container instance_id host_routing_id) events,
                    x.2 = 0 ∧ x.1.carriesBuffer = false))) := by
  refine ⟨rfl, fun events st calls hrun => ⟨ackLog_of_run events _ _ hrun, fun hp => ?_⟩⟩
  rcases ack_pending_origin events _ st calls hrun hp with h | ⟨_, h⟩
  · exact Or.inl h
  · exact Or.inr h

/-- Witness of C23, amended: after `sampleTwoSwaps` on `freshHelper` the second
swap A has left `ack_pending_` true; the first swap A has sent the one
acknowledgment of the run. -/
theorem ack_pending_since_swap_or_construction_witness :
    (run freshHelper sampleTwoSwaps).toOption.map (fun r => r.1.ack_pending_) = some true
      ∧ (ackLog freshHelper sampleTwoSwaps).map Prod.snd = [0, 1, 0]
      ∧ ((∃ pre e post, sampleTwoSwaps = pre ++ e :: post ∧ e.carriesBuffer = true
            ∧ ∀ x ∈ (ackLog freshHelper sampleTwoSwaps).drop pre.length, x.2 = 0)
          ∨ (∀ x ∈ ackLog freshHelper sampleTwoSwaps,
              x.2 = 0 ∧ x.1.carriesBuffer = false)) := by
  refine ⟨by decide, by decide, ?_⟩
  cases hrun : run freshHelper sampleTwoSwaps with
  | error f =>
    have h : (run freshHelper sampleTwoSwaps).toOption.map (fun r => r.1.ack_pending_)
        = some true := by decide
    simp [hrun, Except.toOption] at h
  | ok r =>
    have h : (run freshHelper sampleTwoSwaps).toOption.map (fun r => r.1.ack_pending_)
        = some true := by decide
    have hp : r.1.ack_pending_ = true := by simpa [hrun, Except.toOption] using h
    exact ((ack_pending_since_swap_or_construction (some { web_layer := false }) 7 3).2
      sampleTwoSwaps r.1 r.2 hrun).2 hp

/-- C28: on a new helper with a container, after `EnableCompositing (true)` and
a compositor frame with neither `gl_frame_data` nor `delegated_frame_data`,
`DidCommitCompositorFrame` sends a `CompositorFrameACK` for the ids (0, 0) with
no resources, although no frame data has been handed to the delegated layer.
The same happens after two texture swaps of one generation and such a frame: the
`CompositorFrameACK` then acknowledges the second texture swap. -/
theorem commit_acks_without_frame_data :
    (∀ (container : WebPluginContainer) (instance_id host_routing_id route_id host_id : Int),
        (run (new (some container) instance_id host_routing_id)
            [Event.EnableCompositing true,
             Event.OnCompositorFrameSwapped sampleMalformedFrame route_id host_id,
             Event.DidCommitCompositorFrame]).toOption.map
          (fun r => (sentMessages r.2, r.2.filter
            (fun call => match call with
              | Call.SetFrameData _ => true
              | _ => false)))
          = some ([Message.CompositorFrameACK host_routing_id instance_id 0 0
              { resources := [], gl_frame_data := none }], []))
      ∧ (run enabledHelper
            [sampleSwapA, sampleSwapA,
             Event.OnCompositorFrameSwapped sampleMalformedFrame 1 1,
             Event.DidCommitCompositorFrame]).toOption.map
          (fun r => (sentMessages r.2, r.2.filter
            (fun call => match call with
              | Call.SetFrameData _ => true
              | _ => false)))
          = some ([Message.BuffersSwappedACK 3 7 1 1 gpu.Mailbox.zero.name 0,
              Message.CompositorFrameACK 3 7 1 1
                { resources := [], gl_frame_data := none }], []) := by
  refine ⟨fun container instance_id host_routing_id route_id host_id => rfl, by decide⟩

end BrowserPluginCompositingHelper

end content

namespace chromeos

open ProfileAuthDataTransferer

/-- The steps of a list of tasks followed by one more task. -/
theorem Transfer.steps_append (tasks : List Task) (task : Task) :
    ∀ w : Transfer, w.steps (tasks ++ [task]) = (w.steps tasks).bind (fun w2 => w2.step task) := by
  induction tasks with
  | nil =>
    intro w
    simp only [List.nil_append, Transfer.steps, Option.some_bind]
    cases w.step task <;> rfl
  | cons t rest ih =>
    intro w
    simp only [List.cons_append, Transfer.steps]
    cases w.step t with
    | none => rfl
    | some w2 => exact ih w2

/-- The callbacks of a transfer run in one of the orders of `possibleTasks`. -/
theorem possibleTasks_of_steps (flag : Bool) (cb : base.Closure) (tasks : List Task) :
    ∀ w, (ProfileAuthData.Transfer flag cb).steps tasks = some w → possibleTasks flag tasks := by
  induction tasks using List.reverseRecOn with
  | nil => intro w _; exact Or.inl rfl
  | append_singleton l a ih =>
    intro w h
    rw [Transfer.steps_append] at h
    cases hl : (ProfileAuthData.Transfer flag cb).steps l with
    | none => simp [hl] at h
    | some w1 =>
      rw [hl] at h
      simp only [Option.some_bind] at h
      have hshape := ih w1 hl
      cases flag with
      | false =>
        rcases hshape with rfl | rfl | ⟨hf, _⟩
        · simp [Transfer.steps, ProfileAuthData.Transfer, BeginTransfer, new] at hl
          subst hl
          cases a <;>
            simp [Transfer.step, Task.callback, Task.run, possibleTasks] at h ⊢
        · simp [Transfer.steps, Transfer.step, ProfileAuthData.Transfer, BeginTransfer, new,
            Task.callback, Task.run, BeginTransferOnIOThread, TransferProxyAuthCache,
            Finish] at hl
          subst hl
          cases a <;>
            simp [Transfer.step, Task.callback, Task.run, possibleTasks] at h ⊢
        · simp at hf
      | true =>
        rcases hshape with rfl | rfl | ⟨_, ⟨c, rfl⟩ | ⟨i, rfl⟩ | ⟨c, i, rfl⟩ | ⟨c, i, rfl⟩
          | ⟨c, i, x, hc, rfl⟩ | ⟨c, i, x, hc, rfl⟩⟩
        · simp [Transfer.steps, Transfer.step, ProfileAuthData.Transfer, BeginTransfer, new,
            Task.callback, Task.run, BeginTransferOnIOThread, TransferProxyAuthCache, Finish,
            RetrieveCookiesToTransfer, RetrieveChannelIDsToTransfer,
            OnCookiesToTransferRetrieved, OnChannelIDsToTransferRetrieved,
            MaybeTransferCookiesAndChannelIDs, OnTargetCookieJarContentsRetrieved] at hl
          subst hl
          cases a <;>
            simp [Transfer.steps, Transfer.step, ProfileAuthData.Transfer, BeginTransfer, new,
            Task.callback, Task.run, BeginTransferOnIOThread, TransferProxyAuthCache, Finish,
            RetrieveCookiesToTransfer, RetrieveChannelIDsToTransfer,
            OnCookiesToTransferRetrieved, OnChannelIDsToTransferRetrieved,
            MaybeTransferCookiesAndChannelIDs, OnTargetCookieJarContentsRetrieved,
              possibleTasks] at h ⊢
        · simp [Transfer.steps, Transfer.step, ProfileAuthData.Transfer, BeginTransfer, new,
            Task.callback, Task.run, BeginTransferOnIOThread, TransferProxyAuthCache, Finish,
            RetrieveCookiesToTransfer, RetrieveChannelIDsToTransfer,
            OnCookiesToTransferRetrieved, OnChannelIDsToTransferRetrieved,
            MaybeTransferCookiesAndChannelIDs, OnTargetCookieJarContentsRetrieved] at hl
          subst hl
          cases a <;>
            simp [Transfer.steps, Transfer.step, ProfileAuthData.Transfer, BeginTransfer, new,
            Task.callback, Task.run, BeginTransferOnIOThread, TransferProxyAuthCache, Finish,
            RetrieveCookiesToTransfer, RetrieveChannelIDsToTransfer,
            OnCookiesToTransferRetrieved, OnChannelIDsToTransferRetrieved,
            MaybeTransferCookiesAndChannelIDs, OnTargetCookieJarContentsRetrieved,
              possibleTasks] at h ⊢
        · rcases c with _ | ⟨c0, cs⟩ <;>
            simp [Transfer.steps, Transfer.step, ProfileAuthData.Transfer, BeginTransfer, new,
            Task.callback, Task.run, BeginTransferOnIOThread, TransferProxyAuthCache, Finish,
            RetrieveCookiesToTransfer, RetrieveChannelIDsToTransfer,
            OnCookiesToTransferRetrieved, OnChannelIDsToTransferRetrieved,
            MaybeTransferCookiesAndChannelIDs, OnTargetCookieJarContentsRetrieved] at hl <;>
            subst hl <;>
            cases a <;>
            simp [Transfer.steps, Transfer.step, ProfileAuthData.Transfer, BeginTransfer, new,
            Task.callback, Task.run, BeginTransferOnIOThread, TransferProxyAuthCache, Finish,
            RetrieveCookiesToTransfer, RetrieveChannelIDsToTransfer,
            OnCookiesToTransferRetrieved, OnChannelIDsToTransferRetrieved,
            MaybeTransferCookiesAndChannelIDs, OnTargetCookieJarContentsRetrieved,
              possibleTasks] at h ⊢
        · simp [Transfer.steps, Transfer.step, ProfileAuthData.Transfer, BeginTransfer, new,
            Task.callback, Task.run, BeginTransferOnIOThread, TransferProxyAuthCache, Finish,
            RetrieveCookiesToTransfer, RetrieveChannelIDsToTransfer,
            OnCookiesToTransferRetrieved, OnChannelIDsToTransferRetrieved,
            MaybeTransferCookiesAndChannelIDs, OnTargetCookieJarContentsRetrieved] at hl
          subst hl
          cases a <;>
            simp [Transfer.steps, Transfer.step, ProfileAuthData.Transfer, BeginTransfer, new,
            Task.callback, Task.run, BeginTransferOnIOThread, TransferProxyAuthCache, Finish,
            RetrieveCookiesToTransfer, RetrieveChannelIDsToTransfer,
            OnCookiesToTransferRetrieved, OnChannelIDsToTransferRetrieved,
            MaybeTransferCookiesAndChannelIDs, OnTargetCookieJarContentsRetrieved,
              possibleTasks] at h ⊢
        · rcases c with _ | ⟨c0, cs⟩ <;>
            simp [Transfer.steps, Transfer.step, ProfileAuthData.Transfer, BeginTransfer, new,
            Task.callback, Task.run, BeginTransferOnIOThread, TransferProxyAuthCache, Finish,
            RetrieveCookiesToTransfer, RetrieveChannelIDsToTransfer,
            OnCookiesToTransferRetrieved, OnChannelIDsToTransferRetrieved,
            MaybeTransferCookiesAndChannelIDs, OnTargetCookieJarContentsRetrieved] at hl <;>
            subst hl <;>
            cases a <;>
            simp [Transfer.steps, Transfer.step, ProfileAuthData.Transfer, BeginTransfer, new,
            Task.callback, Task.run, BeginTransferOnIOThread, TransferProxyAuthCache, Finish,
            RetrieveCookiesToTransfer, RetrieveChannelIDsToTransfer,
            OnCookiesToTransferRetrieved, OnChannelIDsToTransferRetrieved,
            MaybeTransferCookiesAndChannelIDs, OnTargetCookieJarContentsRetrieved,
              possibleTasks] at h ⊢
        · rcases c with _ | ⟨c0, cs⟩ <;>
            simp [Transfer.steps, Transfer.step, ProfileAuthData.Transfer, BeginTransfer, new,
            Task.callback, Task.run, BeginTransferOnIOThread, TransferProxyAuthCache, Finish,
            RetrieveCookiesToTransfer, RetrieveChannelIDsToTransfer,
            OnCookiesToTransferRetrieved, OnChannelIDsToTransferRetrieved,
            MaybeTransferCookiesAndChannelIDs, OnTargetCookieJarContentsRetrieved] at hl <;>
            subst hl <;>
            cases a <;>
            simp [Transfer.steps, Transfer.step, ProfileAuthData.Transfer, BeginTransfer, new,
            Task.callback, Task.run, BeginTransferOnIOThread, TransferProxyAuthCache, Finish,
            RetrieveCookiesToTransfer, RetrieveChannelIDsToTransfer,
            OnCookiesToTransferRetrieved, OnChannelIDsToTransferRetrieved,
            MaybeTransferCookiesAndChannelIDs, OnTargetCookieJarContentsRetrieved,
              possibleTasks] at h ⊢
        · rcases c with _ | ⟨c0, cs⟩
          · exact absurd rfl hc
          · simp [Transfer.steps, Transfer.step, ProfileAuthData.Transfer, BeginTransfer, new,
            Task.callback, Task.run, BeginTransferOnIOThread, TransferProxyAuthCache, Finish,
            RetrieveCookiesToTransfer, RetrieveChannelIDsToTransfer,
            OnCookiesToTransferRetrieved, OnChannelIDsToTransferRetrieved,
            MaybeTransferCookiesAndChannelIDs, OnTargetCookieJarContentsRetrieved] at hl
            subst hl
            cases a <;>
              simp [Transfer.steps, Transfer.step, ProfileAuthData.Transfer, BeginTransfer, new,
            Task.callback, Task.run, BeginTransferOnIOThread, TransferProxyAuthCache, Finish,
            RetrieveCookiesToTransfer, RetrieveChannelIDsToTransfer,
            OnCookiesToTransferRetrieved, OnChannelIDsToTransferRetrieved,
            MaybeTransferCookiesAndChannelIDs, OnTargetCookieJarContentsRetrieved,
                possibleTasks] at h ⊢
        · rcases c with _ | ⟨c0, cs⟩
          · exact absurd rfl hc
          · simp [Transfer.steps, Transfer.step, ProfileAuthData.Transfer, BeginTransfer, new,
            Task.callback, Task.run, BeginTransferOnIOThread, TransferProxyAuthCache, Finish,
            RetrieveCookiesToTransfer, RetrieveChannelIDsToTransfer,
            OnCookiesToTransferRetrieved, OnChannelIDsToTransferRetrieved,
            MaybeTransferCookiesAndChannelIDs, OnTargetCookieJarContentsRetrieved] at hl
            subst hl
            cases a <;>
              simp [Transfer.steps, Transfer.step, ProfileAuthData.Transfer, BeginTransfer, new,
            Task.callback, Task.run, BeginTransferOnIOThread, TransferProxyAuthCache, Finish,
            RetrieveCookiesToTransfer, RetrieveChannelIDsToTransfer,
            OnCookiesToTransferRetrieved, OnChannelIDsToTransferRetrieved,
            MaybeTransferCookiesAndChannelIDs, OnTargetCookieJarContentsRetrieved,
                possibleTasks] at h ⊢

/-- C29: in every run of a transfer the calls contain no `InitializeFrom` on
the target context, unless the flag `transfer_auth_cookies_and_channel_ids` is
true, both retrieval callbacks have run, the retrieved cookie list `c` is not
empty and `OnTargetCookieJarContentsRetrieved` has run with an empty target
cookie list; in that case the calls on the target are `InitializeFrom (c)` on
its cookie monster and `InitializeFrom (i)` on its channel ID store, once each,
with the retrieved channel IDs `i`. -/
theorem target_written_only_when (flag : Bool) (cb : base.Closure) (tasks : List Task)
    (w : Transfer) (h : (ProfileAuthData.Transfer flag cb).steps tasks = some w) :
    w.calls.filter Call.writesTarget = []
      ∨ (flag = true ∧ ∃ c i, c ≠ []
          ∧ (tasks = [Task.BeginTransferOnIOThread, Task.OnCookiesToTransferRetrieved c,
                Task.OnChannelIDsToTransferRetrieved i,
                Task.OnTargetCookieJarContentsRetrieved []]
            ∨ tasks = [Task.BeginTransferOnIOThread, Task.OnChannelIDsToTransferRetrieved i,
                Task.OnCookiesToTransferRetrieved c,
                Task.OnTargetCookieJarContentsRetrieved []])
          ∧ w.calls.filter Call.writesTarget
            = [Call.to_CookieMonster_InitializeFrom c,
               Call.to_ChannelIDStore_InitializeFrom i]) := by
  have hshape := possibleTasks_of_steps flag cb tasks w h
  rcases hshape with rfl | rfl | ⟨hf, ⟨c, rfl⟩ | ⟨i, rfl⟩ | ⟨c, i, rfl⟩ | ⟨c, i, rfl⟩
    | ⟨c, i, x, hc, rfl⟩ | ⟨c, i, x, hc, rfl⟩⟩
  · cases flag <;> cases cb <;>
      simp [Transfer.steps, Transfer.step, ProfileAuthData.Transfer, BeginTransfer, new,
      Task.callback, Task.run, BeginTransferOnIOThread, TransferProxyAuthCache, Finish,
      RetrieveCookiesToTransfer, RetrieveChannelIDsToTransfer,
      OnCookiesToTransferRetrieved, OnChannelIDsToTransferRetrieved,
      MaybeTransferCookiesAndChannelIDs, OnTargetCookieJarContentsRetrieved] at h <;>
      subst h <;> simp [Call.writesTarget]
  · cases flag <;> cases cb <;>
      simp [Transfer.steps, Transfer.step, ProfileAuthData.Transfer, BeginTransfer, new,
      Task.callback, Task.run, BeginTransferOnIOThread, TransferProxyAuthCache, Finish,
      RetrieveCookiesToTransfer, RetrieveChannelIDsToTransfer,
      OnCookiesToTransferRetrieved, OnChannelIDsToTransferRetrieved,
      MaybeTransferCookiesAndChannelIDs, OnTargetCookieJarContentsRetrieved] at h <;>
      subst h <;> simp [Call.writesTarget]
  · subst hf
    rcases c with _ | ⟨c0, cs⟩ <;> cases cb <;>
      simp [Transfer.steps, Transfer.step, ProfileAuthData.Transfer, BeginTransfer, new,
      Task.callback, Task.run, BeginTransferOnIOThread, TransferProxyAuthCache, Finish,
      RetrieveCookiesToTransfer, RetrieveChannelIDsToTransfer,
      OnCookiesToTransferRetrieved, OnChannelIDsToTransferRetrieved,
      MaybeTransferCookiesAndChannelIDs, OnTargetCookieJarContentsRetrieved] at h <;>
      subst h <;> simp [Call.writesTarget]
  · subst hf
    cases cb <;>
      simp [Transfer.steps, Transfer.step, ProfileAuthData.Transfer, BeginTransfer, new,
      Task.callback, Task.run, BeginTransferOnIOThread, TransferProxyAuthCache, Finish,
      RetrieveCookiesToTransfer, RetrieveChannelIDsToTransfer,
      OnCookiesToTransferRetrieved, OnChannelIDsToTransferRetrieved,
      MaybeTransferCookiesAndChannelIDs, OnTargetCookieJarContentsRetrieved] at h <;>
      subst h <;> simp [Call.writesTarget]
  · subst hf
    rcases c with _ | ⟨c0, cs⟩ <;> cases cb <;>
      simp [Transfer.steps, Transfer.step, ProfileAuthData.Transfer, BeginTransfer, new,
      Task.callback, Task.run, BeginTransferOnIOThread, TransferProxyAuthCache, Finish,
      RetrieveCookiesToTransfer, RetrieveChannelIDsToTransfer,
      OnCookiesToTransferRetrieved, OnChannelIDsToTransferRetrieved,
      MaybeTransferCookiesAndChannelIDs, OnTargetCookieJarContentsRetrieved] at h <;>
      subst h <;> simp [Call.writesTarget]
  · subst hf
    rcases c with _ | ⟨c0, cs⟩ <;> cases cb <;>
      simp [Transfer.steps, Transfer.step, ProfileAuthData.Transfer, BeginTransfer, new,
      Task.callback, Task.run, BeginTransferOnIOThread, TransferProxyAuthCache, Finish,
      RetrieveCookiesToTransfer, RetrieveChannelIDsToTransfer,
      OnCookiesToTransferRetrieved, OnChannelIDsToTransferRetrieved,
      MaybeTransferCookiesAndChannelIDs, OnTargetCookieJarContentsRetrieved] at h <;>
      subst h <;> simp [Call.writesTarget]
  · subst hf
    rcases c with _ | ⟨c0, cs⟩
    · exact absurd rfl hc
    · rcases x with _ | ⟨x0, xs⟩ <;> cases cb <;>
        simp [Transfer.steps, Transfer.step, ProfileAuthData.Transfer, BeginTransfer, new,
      Task.callback, Task.run, BeginTransferOnIOThread, TransferProxyAuthCache, Finish,
      RetrieveCookiesToTransfer, RetrieveChannelIDsToTransfer,
      OnCookiesToTransferRetrieved, OnChannelIDsToTransferRetrieved,
      MaybeTransferCookiesAndChannelIDs, OnTargetCookieJarContentsRetrieved] at h <;>
        subst h <;> simp [Call.writesTarget]
  · subst hf
    rcases c with _ | ⟨c0, cs⟩
    · exact absurd rfl hc
    · rcases x with _ | ⟨x0, xs⟩ <;> cases cb <;>
        simp [Transfer.steps, Transfer.step, ProfileAuthData.Transfer, BeginTransfer, new,
      Task.callback, Task.run, BeginTransferOnIOThread, TransferProxyAuthCache, Finish,
      RetrieveCookiesToTransfer, RetrieveChannelIDsToTransfer,
      OnCookiesToTransferRetrieved, OnChannelIDsToTransferRetrieved,
      MaybeTransferCookiesAndChannelIDs, OnTargetCookieJarContentsRetrieved] at h <;>
        subst h <;> simp [Call.writesTarget]

/-- Witness of C29: the complete transfer `sampleTasks` writes the retrieved
cookies and channel IDs into the target. -/
theorem target_written_only_when_witness :
    (ProfileAuthData.Transfer true (some 1)).steps sampleTasks = some sampleFinished
      ∧ (sampleFinished.calls.filter Call.writesTarget = []
        ∨ (true = true ∧ ∃ c i, c ≠ []
          ∧ (sampleTasks = [Task.BeginTransferOnIOThread, Task.OnCookiesToTransferRetrieved c,
                Task.OnChannelIDsToTransferRetrieved i,
                Task.OnTargetCookieJarContentsRetrieved []]
            ∨ sampleTasks = [Task.BeginTransferOnIOThread,
                Task.OnChannelIDsToTransferRetrieved i, Task.OnCookiesToTransferRetrieved c,
                Task.OnTargetCookieJarContentsRetrieved []])
          ∧ sampleFinished.calls.filter Call.writesTarget
            = [Call.to_CookieMonster_InitializeFrom c,
               Call.to_ChannelIDStore_InitializeFrom i])) :=
  ⟨by decide,
    target_written_only_when true (some 1) sampleTasks sampleFinished (by decide)⟩

/-- C30: in every run of a transfer the calls contain at most one `PostTask`
of the completion callback to the UI thread.  With the flag
`transfer_auth_cookies_and_channel_ids` false it is the one of `BeginTransfer`,
and `completion_callback_` is null from then on, also after `Finish`.  With
the flag true every such `PostTask` is the one of `Finish`, and `Finish` has
run (`delete this` is among the calls) only after both
`OnCookiesToTransferRetrieved` and `OnChannelIDsToTransferRetrieved`; it then
has posted the callback once if the callback is not null. -/
theorem completion_callback_posted_once (flag : Bool) (cb : base.Closure)
    (tasks : List Task) (w : Transfer)
    (h : (ProfileAuthData.Transfer flag cb).steps tasks = some w) :
    (w.calls.filter Call.isPostTask_UI).length ≤ 1
      ∧ (flag = false →
          w.calls.filter Call.isPostTask_UI = [Call.PostTask_UI Location.BeginTransfer cb]
            ∧ (∀ t, w.this = some t → t.completion_callback_ = none))
      ∧ (flag = true →
          (∀ call ∈ w.calls, call.isPostTask_UI = true →
              call = Call.PostTask_UI Location.Finish cb)
            ∧ (Call.delete_this ∈ w.calls →
              (∃ c i, Task.OnCookiesToTransferRetrieved c ∈ tasks
                ∧ Task.OnChannelIDsToTransferRetrieved i ∈ tasks)
              ∧ w.calls.filter Call.isPostTask_UI
                = (if cb.isSome then [Call.PostTask_UI Location.Finish cb] else []))) := by
  have hshape := possibleTasks_of_steps flag cb tasks w h
  rcases hshape with rfl | rfl | ⟨hf, ⟨c, rfl⟩ | ⟨i, rfl⟩ | ⟨c, i, rfl⟩ | ⟨c, i, rfl⟩
    | ⟨c, i, x, hc, rfl⟩ | ⟨c, i, x, hc, rfl⟩⟩
  · cases flag <;> cases cb <;>
      simp [Transfer.steps, Transfer.step, ProfileAuthData.Transfer, BeginTransfer, new,
      Task.callback, Task.run, BeginTransferOnIOThread, TransferProxyAuthCache, Finish,
      RetrieveCookiesToTransfer, RetrieveChannelIDsToTransfer,
      OnCookiesToTransferRetrieved, OnChannelIDsToTransferRetrieved,
      MaybeTransferCookiesAndChannelIDs, OnTargetCookieJarContentsRetrieved] at h <;>
      subst h <;> simp [Call.isPostTask_UI]
  · cases flag <;> cases cb <;>
      simp [Transfer.steps, Transfer.step, ProfileAuthData.Transfer, BeginTransfer, new,
      Task.callback, Task.run, BeginTransferOnIOThread, TransferProxyAuthCache, Finish,
      RetrieveCookiesToTransfer, RetrieveChannelIDsToTransfer,
      OnCookiesToTransferRetrieved, OnChannelIDsToTransferRetrieved,
      MaybeTransferCookiesAndChannelIDs, OnTargetCookieJarContentsRetrieved] at h <;>
      subst h <;> simp [Call.isPostTask_UI]
  · subst hf
    rcases c with _ | ⟨c0, cs⟩ <;> cases cb <;>
      simp [Transfer.steps, Transfer.step, ProfileAuthData.Transfer, BeginTransfer, new,
      Task.callback, Task.run, BeginTransferOnIOThread, TransferProxyAuthCache, Finish,
      RetrieveCookiesToTransfer, RetrieveChannelIDsToTransfer,
      OnCookiesToTransferRetrieved, OnChannelIDsToTransferRetrieved,
      MaybeTransferCookiesAndChannelIDs, OnTargetCookieJarContentsRetrieved] at h <;>
      subst h <;> simp [Call.isPostTask_UI]
  · subst hf
    cases cb <;>
      simp [Transfer.steps, Transfer.step, ProfileAuthData.Transfer, BeginTransfer, new,
      Task.callback, Task.run, BeginTransferOnIOThread, TransferProxyAuthCache, Finish,
      RetrieveCookiesToTransfer, RetrieveChannelIDsToTransfer,
      OnCookiesToTransferRetrieved, OnChannelIDsToTransferRetrieved,
      MaybeTransferCookiesAndChannelIDs, OnTargetCookieJarContentsRetrieved] at h <;>
      subst h <;> simp [Call.isPostTask_UI]
  · subst hf
    rcases c with _ | ⟨c0, cs⟩ <;> cases cb <;>
      simp [Transfer.steps, Transfer.step, ProfileAuthData.Transfer, BeginTransfer, new,
      Task.callback, Task.run, BeginTransferOnIOThread, TransferProxyAuthCache, Finish,
      RetrieveCookiesToTransfer, RetrieveChannelIDsToTransfer,
      OnCookiesToTransferRetrieved, OnChannelIDsToTransferRetrieved,
      MaybeTransferCookiesAndChannelIDs, OnTargetCookieJarContentsRetrieved] at h <;>
      subst h <;> simp [Call.isPostTask_UI]
  · subst hf
    rcases c with _ | ⟨c0, cs⟩ <;> cases cb <;>
      simp [Transfer.steps, Transfer.step, ProfileAuthData.Transfer, BeginTransfer, new,
      Task.callback, Task.run, BeginTransferOnIOThread, TransferProxyAuthCache, Finish,
      RetrieveCookiesToTransfer, RetrieveChannelIDsToTransfer,
      OnCookiesToTransferRetrieved, OnChannelIDsToTransferRetrieved,
      MaybeTransferCookiesAndChannelIDs, OnTargetCookieJarContentsRetrieved] at h <;>
      subst h <;> simp [Call.isPostTask_UI]
  · subst hf
    rcases c with _ | ⟨c0, cs⟩
    · exact absurd rfl hc
    · rcases x with _ | ⟨x0, xs⟩ <;> cases cb <;>
        simp [Transfer.steps, Transfer.step, ProfileAuthData.Transfer, BeginTransfer, new,
        Task.callback, Task.run, BeginTransferOnIOThread, TransferProxyAuthCache, Finish,
        RetrieveCookiesToTransfer, RetrieveChannelIDsToTransfer,
        OnCookiesToTransferRetrieved, OnChannelIDsToTransferRetrieved,
        MaybeTransferCookiesAndChannelIDs, OnTargetCookieJarContentsRetrieved] at h <;>
        subst h <;> simp [Call.isPostTask_UI]
  · subst hf
    rcases c with _ | ⟨c0, cs⟩
    · exact absurd rfl hc
    · rcases x with _ | ⟨x0, xs⟩ <;> cases cb <;>
        simp [Transfer.steps, Transfer.step, ProfileAuthData.Transfer, BeginTransfer, new,
        Task.callback, Task.run, BeginTransferOnIOThread, TransferProxyAuthCache, Finish,
        RetrieveCookiesToTransfer, RetrieveChannelIDsToTransfer,
        OnCookiesToTransferRetrieved, OnChannelIDsToTransferRetrieved,
        MaybeTransferCookiesAndChannelIDs, OnTargetCookieJarContentsRetrieved] at h <;>
        subst h <;> simp [Call.isPostTask_UI]

/-- Witness of C30: with the flag clear and the callback `some 1`, the
callback is posted by `BeginTransfer` and not again by `Finish`. -/
theorem completion_callback_posted_once_witness :
    (ProfileAuthData.Transfer false (some 1)).steps [Task.BeginTransferOnIOThread]
        = some sampleFinishedProxyOnly
      ∧ sampleFinishedProxyOnly.calls.filter Call.isPostTask_UI
        = [Call.PostTask_UI Location.BeginTransfer (some 1)] :=
  ⟨by decide,
    ((completion_callback_posted_once false (some 1) [Task.BeginTransferOnIOThread]
      sampleFinishedProxyOnly (by decide)).2.1 rfl).1⟩

end chromeos
